import Mathlib

/-!
# Verification of the Run.ai storage-monitor core

A shallow embedding, in Lean 4, of the core of the `runai/storage_monitor`
subsystem: the PVC / namespace / quota domain services, the recommendation
engine, the storage analyzer and the dashboard aggregator, together with
theorems checking the natural-language specification against this embedding.

Modelling conventions:
* Python `float` values are modelled as exact fractions (`Frac`, an integer
  numerator over an integer denominator, kept positive by construction);
  every arithmetic operation the code performs (sums, divisions by powers of
  two and ten, multiplications by 1024) is exact on this representation, and
  `Frac.toRat` plus the homomorphism lemmas below relate it to `ℚ`.
* Python dictionaries are modelled as association lists (`List (String × α)`)
  with in-place replacement on assignment, mirroring CPython's
  insertion-order semantics.
* Functions that can raise are modelled as `Except String`; `None`-able
  values as `Option`.
* Timestamps are integers (seconds); `datetime.now` is an explicit `now`
  argument threaded through the embedding.
-/

namespace StorageMonitor

/-! ## Exact fractions standing in for Python floats -/

/-- An exact fraction: the value `num / den`.  All fractions built by this
embedding keep `den` positive, and no operation here normalizes, so every
operation is a plain integer computation. -/
structure Frac where
  num : Int
  den : Int
  deriving DecidableEq, Repr

namespace Frac

/-- The float literal `n.0`. -/
def ofInt (n : Int) : Frac := ⟨n, 1⟩

/-- Float addition. -/
def add (a b : Frac) : Frac := ⟨a.num * b.den + b.num * a.den, a.den * b.den⟩

/-- Float multiplication. -/
def mul (a b : Frac) : Frac := ⟨a.num * b.num, a.den * b.den⟩

/-- Float subtraction. -/
def sub (a b : Frac) : Frac := ⟨a.num * b.den - b.num * a.den, a.den * b.den⟩

/-- Float division. -/
def div (a b : Frac) : Frac := ⟨a.num * b.den, a.den * b.num⟩

/-- Multiplication by `10 ^ k` (`k` may be negative), used for the exponent
part of a float literal. -/
def mulPow10 (a : Frac) (k : Int) : Frac :=
  if 0 ≤ k then ⟨a.num * 10 ^ k.toNat, a.den⟩ else ⟨a.num, a.den * 10 ^ (-k).toNat⟩

/-- Strict comparison `a < b`, by cross-multiplication; correct whenever
both denominators are positive, which the embedding maintains. -/
def blt (a b : Frac) : Bool := a.num * b.den < b.num * a.den

/-- Comparison `a ≤ b`, by cross-multiplication (positive denominators). -/
def ble (a b : Frac) : Bool := a.num * b.den ≤ b.num * a.den

/-- Value equality `a = b` as rationals, by cross-multiplication. -/
def eqv (a b : Frac) : Bool := a.num * b.den = b.num * a.den

/-- The rational value of a fraction. -/
def toRat (a : Frac) : ℚ := (a.num : ℚ) / (a.den : ℚ)

end Frac

instance {ε α : Type} [DecidableEq ε] [DecidableEq α] : DecidableEq (Except ε α) :=
  fun a b =>
    match a, b with
    | .ok x, .ok y =>
      match decEq x y with
      | isTrue h => isTrue (congrArg Except.ok h)
      | isFalse h => isFalse (fun hh => h (Except.ok.inj hh))
    | .error x, .error y =>
      match decEq x y with
      | isTrue h => isTrue (congrArg Except.error h)
      | isFalse h => isFalse (fun hh => h (Except.error.inj hh))
    | .ok _, .error _ => isFalse (fun hh => Except.noConfusion hh)
    | .error _, .ok _ => isFalse (fun hh => Except.noConfusion hh)

/-! ## Python helpers: `str.strip`, `float(...)`, dictionaries -/

/-- The characters Python's default `str.strip()` (and `float(...)`)
removes: space, tab, newline, carriage return, vertical tab, form feed. -/
def isPySpace (c : Char) : Bool :=
  c = ' ' || c = '\t' || c = '\n' || c = '\r' || c.toNat = 11 || c.toNat = 12

/-- `str.strip()` with no argument: drop whitespace from both ends. -/
def pyStrip (cs : List Char) : List Char :=
  ((cs.dropWhile isPySpace).reverse.dropWhile isPySpace).reverse

/-- `s.endswith(suffix)`. -/
def strEndsWith (cs suffix : List Char) : Bool :=
  suffix.isSuffixOf cs

/-- `s[:-n]`: all characters but the last `n`. -/
def strDropRight (cs : List Char) (n : Nat) : List Char :=
  cs.take (cs.length - n)

/-- Numeric value of a run of decimal digit characters (most significant
first), as used when reading a digit run of a Python float literal. -/
def digitsToNat (cs : List Char) : Nat :=
  cs.foldl (fun a c => 10 * a + (c.toNat - 48)) 0

/-- Split a character list at the first exponent marker (`e` or `E`):
returns the mantissa characters and, when a marker is present, the
characters after it. -/
def splitExp (cs : List Char) : List Char × Option (List Char) :=
  let m := cs.takeWhile (fun c => c ≠ 'e' && c ≠ 'E')
  match cs.drop m.length with
  | [] => (m, none)
  | _ :: t => (m, some t)

/-- Parse the exponent part of a Python float literal: an optional sign
followed by a non-empty run of digits. -/
def parseExpPart (cs : List Char) : Option Int :=
  let (sign, ds) : Int × List Char :=
    match cs with
    | '+' :: r => (1, r)
    | '-' :: r => (-1, r)
    | r => (1, r)
  if !ds.isEmpty && ds.all Char.isDigit then some (sign * digitsToNat ds) else none

/-- Parse the unsigned mantissa of a Python float literal: an optional
integer digit run, an optional dot, an optional fractional digit run, with
at least one digit overall. -/
def parseMantissa (cs : List Char) : Option Frac :=
  let ip := cs.takeWhile (· ≠ '.')
  let frac : List Char :=
    match cs.drop ip.length with
    | [] => []
    | _ :: t => t
  if ip.all Char.isDigit && frac.all Char.isDigit && (!ip.isEmpty || !frac.isEmpty) then
    some ⟨(digitsToNat ip : Int) * 10 ^ frac.length + (digitsToNat frac : Int),
          (10 : Int) ^ frac.length⟩
  else
    none

/-- Model of Python's `float(str)` on decimal literals: surrounding
whitespace is stripped, then an optional sign, a mantissa and an optional
exponent are read.  Returns `none` where CPython raises `ValueError`.
(Niceties irrelevant to capacity strings — `inf`/`nan` literals, digit-group
underscores, overflow to infinity — are outside the modelled fragment.) -/
def pyFloatChars (cs : List Char) : Option Frac :=
  let cs := pyStrip cs
  let (sign, cs) : Int × List Char :=
    match cs with
    | '+' :: r => (1, r)
    | '-' :: r => (-1, r)
    | r => (1, r)
  let (mant, expPart) := splitExp cs
  match parseMantissa mant with
  | none => none
  | some m =>
    let signed : Frac := ⟨sign * m.num, m.den⟩
    match expPart with
    | none => some signed
    | some e =>
      match parseExpPart e with
      | none => none
      | some k => some (signed.mulPow10 k)

/-- `float(s)` on a Lean string. -/
def pyFloat (s : String) : Option Frac :=
  pyFloatChars s.data

/-- Association-list lookup, modelling `d.get(k)` on a Python dict. -/
def dictGet {α : Type} (d : List (String × α)) (k : String) : Option α :=
  (d.find? (fun p => p.1 = k)).map (·.2)

/-- Membership test, modelling `k in d` on a Python dict. -/
def dictContains {α : Type} (d : List (String × α)) (k : String) : Bool :=
  d.any (fun p => p.1 = k)

/-- Single-key assignment `d[k] = v`: replaces the binding in place when the
key is present (keeping insertion order, as CPython does), appends
otherwise. -/
def dictInsert {α : Type} (d : List (String × α)) (k : String) (v : α) :
    List (String × α) :=
  if dictContains d k then
    d.map (fun p => if p.1 = k then (k, v) else p)
  else
    d ++ [(k, v)]

/-- Model of `d1.update(d2)`: every binding of `d2`, in order, is assigned
into `d1`. -/
def dictUpdate {α : Type} (d1 d2 : List (String × α)) : List (String × α) :=
  d2.foldl (fun a p => dictInsert a p.1 p.2) d1

/-- The last binding of key `k` in `l`, if any: the value the most recent
assignment of `k` leaves behind.  Used to state the last-write-wins
property of quota merging. -/
def assocFindLast {α : Type} (l : List (String × α)) (k : String) : Option α :=
  match l with
  | [] => none
  | p :: t =>
    match assocFindLast t k with
    | some v => some v
    | none => if p.1 = k then some p.2 else none

/-- Python's `x or default` on an optional string: `default` replaces both
`None` and the (falsy) empty string. -/
def pyOrStr (v : Option String) (default : String) : String :=
  match v with
  | none => default
  | some s => if s = "" then default else s

/-- Model of Python's `int(str)`: strip whitespace, optional sign, a
non-empty digit run.  `none` where CPython raises `ValueError`. -/
def pyIntOfString (s : String) : Option Int :=
  let cs := pyStrip s.data
  let (sign, ds) : Int × List Char :=
    match cs with
    | '+' :: r => (1, r)
    | '-' :: r => (-1, r)
    | r => (1, r)
  if !ds.isEmpty && ds.all Char.isDigit then some (sign * digitsToNat ds) else none

/-- Insert `x` into a list already sorted by the strict "must come first"
comparator `prec`, after every element it does not strictly precede. -/
def pyInsertSorted {α : Type} (prec : α → α → Bool) (x : α) : List α → List α
  | [] => [x]
  | y :: t => if prec x y then x :: y :: t else y :: pyInsertSorted prec x t

/-- Python's stable `sorted`: with `prec a b` meaning "`a` must come
strictly before `b`", equal elements keep their original order.
`sorted(l, key=k)` is `pySortedBy (k · < k ·) l`; `reverse=True` flips the
comparator to `k · > k ·` (descending, still stable). -/
def pySortedBy {α : Type} (prec : α → α → Bool) (l : List α) : List α :=
  l.foldl (fun acc x => pyInsertSorted prec x acc) []

/-- Lexicographic `<` on code points, Python's `str < str`. -/
def strLt (a b : List Char) : Bool :=
  match a, b with
  | [], [] => false
  | [], _ :: _ => true
  | _ :: _, [] => false
  | x :: xs, y :: ys => if x = y then strLt xs ys else decide (x < y)

/-- Round `a / b` (with `b > 0`) to the nearest integer, ties to even —
the rounding Python's `format(x, ".2f")` applies to the scaled value. -/
def roundHalfEvenInt (a b : Int) : Int :=
  let q := Int.fdiv a b
  let r := a - q * b
  if 2 * r < b then q
  else if b < 2 * r then q + 1
  else if q % 2 = 0 then q else q + 1

/-- Python's `f"{x:.2f}"` on the exact value of a fraction with positive
denominator: fixed two decimal places, ties to even. -/
def formatFixed2 (f : Frac) : String :=
  let n := roundHalfEvenInt (f.num * 100) f.den
  let m := n.natAbs
  (if n < 0 then "-" else "") ++ toString (m / 100) ++ "." ++
    (if m % 100 < 10 then "0" else "") ++ toString (m % 100)

/-! ## `PVCService.parse_capacity_to_gi` -/

/-- Embedding of `PVCService.parse_capacity_to_gi` (pvc_service.py).
`Except.error` marks the paths on which Python's `float(...)` raises
`ValueError`. -/
def parse_capacity_to_gi (capacity : String) : Except String Frac :=
  if capacity = "" ∨ capacity = "Unknown" then
    Except.ok (Frac.ofInt 0)
  else
    let c := pyStrip capacity.data
    if strEndsWith c ['T', 'i'] then
      match pyFloatChars (strDropRight c 2) with
      | some v => Except.ok (v.mul (Frac.ofInt 1024))
      | none => Except.error "could not convert string to float"
    else if strEndsWith c ['G', 'i'] then
      match pyFloatChars (strDropRight c 2) with
      | some v => Except.ok v
      | none => Except.error "could not convert string to float"
    else if strEndsWith c ['M', 'i'] then
      match pyFloatChars (strDropRight c 2) with
      | some v => Except.ok (v.div (Frac.ofInt 1024))
      | none => Except.error "could not convert string to float"
    else if strEndsWith c ['K', 'i'] then
      match pyFloatChars (strDropRight c 2) with
      | some v => Except.ok (v.div (Frac.ofInt (1024 * 1024)))
      | none => Except.error "could not convert string to float"
    else
      match pyFloatChars c with
      | some v => Except.ok (v.div (Frac.ofInt (1024 ^ 3)))
      | none => Except.error "could not convert string to float"

/-- Modelled from the spec (§4.1, §8): the value `parseCapacity` is claimed
to compute — unit table Ti×1024 / Gi×1 / Mi÷1024 / Ki÷1024², raw bytes
÷1024³ for anything else, 0.0 for empty or "Unknown" — written as a *total*
function, defaulting an unreadable number to 0. -/
def specCapacityValue (capacity : String) : Frac :=
  if capacity = "" ∨ capacity = "Unknown" then
    Frac.ofInt 0
  else
    let c := pyStrip capacity.data
    if strEndsWith c ['T', 'i'] then
      ((pyFloatChars (strDropRight c 2)).getD (Frac.ofInt 0)).mul (Frac.ofInt 1024)
    else if strEndsWith c ['G', 'i'] then
      (pyFloatChars (strDropRight c 2)).getD (Frac.ofInt 0)
    else if strEndsWith c ['M', 'i'] then
      ((pyFloatChars (strDropRight c 2)).getD (Frac.ofInt 0)).div (Frac.ofInt 1024)
    else if strEndsWith c ['K', 'i'] then
      ((pyFloatChars (strDropRight c 2)).getD (Frac.ofInt 0)).div
        (Frac.ofInt (1024 * 1024))
    else
      ((pyFloatChars c).getD (Frac.ofInt 0)).div (Frac.ofInt (1024 ^ 3))

/-- A capacity string the spec's grammar accepts: empty, "Unknown", a
`<number><Ti|Gi|Mi|Ki>` form, or a bare float literal (raw bytes). -/
def wellFormedCapacity (capacity : String) : Bool :=
  if capacity = "" ∨ capacity = "Unknown" then true
  else
    let c := pyStrip capacity.data
    if strEndsWith c ['T', 'i'] = true ∨ strEndsWith c ['G', 'i'] = true ∨
        strEndsWith c ['M', 'i'] = true ∨ strEndsWith c ['K', 'i'] = true then
      (pyFloatChars (strDropRight c 2)).isSome
    else
      (pyFloatChars c).isSome

/-- Whether an `Except` computation finished without raising. -/
def exceptIsOk {ε α : Type} : Except ε α → Bool
  | Except.ok _ => true
  | Except.error _ => false

/-! ## Domain models (storage_models.py / dashboard_models.py)

The pydantic models, with `float` as `Frac`, `datetime` as `Int` seconds
and dicts as association lists. -/

/-- `PVC` (storage_models.py). -/
structure PVC where
  name : String
  «namespace» : String
  status : String
  capacity : String
  storage_class : Option String := none
  access_modes : List String := []
  volume_name : Option String := none
  creation_timestamp : Option Int := none
  age_days : Option Int := none
  labels : List (String × String) := []
  annotations : List (String × String) := []
  deriving DecidableEq, Repr

/-- `Pod` (storage_models.py). -/
structure Pod where
  name : String
  «namespace» : String
  status : String
  node_name : Option String := none
  pvc_claims : List String := []
  creation_timestamp : Option Int := none
  labels : List (String × String) := []
  deriving DecidableEq, Repr

/-- `PVCWithPods` (storage_models.py). -/
structure PVCWithPods where
  pvc : PVC
  pods : List Pod := []
  is_unused : Bool := false
  usage_bytes : Option Int := none
  usage_percentage : Option Frac := none
  deriving DecidableEq, Repr

/-- `StorageClass` (storage_models.py). -/
structure StorageClass where
  name : String
  provisioner : String
  reclaim_policy : Option String := none
  volume_binding_mode : Option String := none
  allow_volume_expansion : Bool := false
  parameters : List (String × String) := []
  deriving DecidableEq, Repr

/-- `ResourceQuota` (storage_models.py). -/
structure ResourceQuota where
  name : String
  «namespace» : String
  hard_limits : List (String × String) := []
  used : List (String × String) := []
  has_storage_quota : Bool := false
  storage_limit : Option String := none
  storage_used : Option String := none
  pvc_count_limit : Option Int := none
  pvc_count_used : Option Int := none
  deriving DecidableEq, Repr

/-- `StorageSummary` (storage_models.py). -/
structure StorageSummary where
  «namespace» : String
  total_pvcs : Nat := 0
  bound_pvcs : Nat := 0
  pending_pvcs : Nat := 0
  unused_pvcs : Nat := 0
  total_capacity_gi : Frac := Frac.ofInt 0
  unused_capacity_gi : Frac := Frac.ofInt 0
  storage_classes : List (String × Nat) := []
  has_quota : Bool := false
  quota : Option ResourceQuota := none
  deriving DecidableEq, Repr

/-- `Recommendation` (storage_models.py). -/
structure Recommendation where
  type : String
  severity : String
  title : String
  description : String
  pvc_name : Option String := none
  capacity : Option String := none
  capacity_gi : Option Frac := none
  age_days : Option Int := none
  actionable : Bool := true
  deriving DecidableEq, Repr

/-- `StorageAnalysis` (storage_models.py). -/
structure StorageAnalysis where
  «namespace» : String
  timestamp : Int
  summary : StorageSummary
  pvcs : List PVCWithPods := []
  storage_classes : List StorageClass := []
  recommendations : List Recommendation := []
  deriving DecidableEq, Repr

/-- `NamespaceSummary` (dashboard_models.py). -/
structure NamespaceSummary where
  «namespace» : String
  total_pvcs : Nat := 0
  unused_pvcs : Nat := 0
  bound_pvcs : Nat := 0
  pending_pvcs : Nat := 0
  total_capacity_gi : Frac := Frac.ofInt 0
  unused_capacity_gi : Frac := Frac.ofInt 0
  has_quota : Bool := false
  error : Option String := none
  deriving DecidableEq, Repr

/-- `ClusterOverview` (dashboard_models.py). -/
structure ClusterOverview where
  total_namespaces : Nat := 0
  total_pvcs : Nat := 0
  total_capacity_gi : Frac := Frac.ofInt 0
  unused_capacity_gi : Frac := Frac.ofInt 0
  total_unused_pvcs : Nat := 0
  namespaces_with_quota : Nat := 0
  timestamp : Int
  deriving DecidableEq, Repr

/-- A Chart.js background color: a single color string or one per slice. -/
inductive BgColor where
  | single (c : String)
  | multi (cs : List String)
  deriving DecidableEq, Repr

/-- One entry of a `GraphData.datasets` list (a Python dict in the source,
with an optional "label", a numeric "data" list and a background color). -/
structure Dataset where
  label : Option String := none
  data : List Frac := []
  backgroundColor : BgColor
  deriving DecidableEq, Repr

/-- Chart.js axis options appearing under `options.scales`. -/
structure AxisOptions where
  stacked : Option Bool := none
  beginAtZero : Option Bool := none
  deriving DecidableEq, Repr

/-- The `options.scales` dict. -/
structure ScalesOptions where
  x : Option AxisOptions := none
  y : Option AxisOptions := none
  deriving DecidableEq, Repr

/-- The `options` dict of a graph. -/
structure GraphOptions where
  scales : Option ScalesOptions := none
  deriving DecidableEq, Repr

/-- `GraphData` (dashboard_models.py). -/
structure GraphData where
  type : String
  labels : List String := []
  datasets : List Dataset := []
  options : GraphOptions := {}
  deriving DecidableEq, Repr

/-! ## The Kubernetes client boundary (k8s_client.py)

The records `K8sClient.list_*` return, and a cluster state giving each
listing call's result.  The listing calls themselves are assumed not to
fail here (their transport failures are outside the modelled fragment);
the one the analyzer deliberately survives — storage-class listing — keeps
its `Except` so the swallow-to-empty behaviour stays visible. -/

/-- One element of `K8sClient.list_namespaces()`. -/
structure NamespaceRecord where
  name : String
  creation_timestamp : Option Int := none
  labels : List (String × String) := []
  status : String := "Active"
  deriving DecidableEq, Repr

/-- One element of `K8sClient.list_pvcs(namespace)`.  `capacity` is `none`
when the control plane has not reported a capacity yet. -/
structure PVCRecord where
  name : String
  «namespace» : String
  status : String
  capacity : Option String := none
  storage_class : Option String := none
  access_modes : List String := []
  volume_name : Option String := none
  creation_timestamp : Option Int := none
  labels : List (String × String) := []
  annotations : List (String × String) := []
  deriving DecidableEq, Repr

/-- One element of `K8sClient.list_pods(namespace)`. -/
structure PodRecord where
  name : String
  «namespace» : String
  status : String
  node_name : Option String := none
  pvc_claims : List String := []
  creation_timestamp : Option Int := none
  labels : List (String × String) := []
  deriving DecidableEq, Repr

/-- One element of `K8sClient.list_storage_classes()`. -/
structure StorageClassRecord where
  name : String
  provisioner : String
  reclaim_policy : Option String := none
  volume_binding_mode : Option String := none
  allow_volume_expansion : Bool := false
  parameters : List (String × String) := []
  deriving DecidableEq, Repr

/-- One element of `K8sClient.list_resource_quotas(namespace)`. -/
structure QuotaRecord where
  name : String
  «namespace» : String
  hard_limits : List (String × String) := []
  used : List (String × String) := []
  deriving DecidableEq, Repr

/-- The cluster as the `K8sClient` sees it: the result of each listing
call. -/
structure K8sState where
  namespaces : List NamespaceRecord := []
  pvcs : String → List PVCRecord := fun _ => []
  pods : String → List PodRecord := fun _ => []
  quotas : String → List QuotaRecord := fun _ => []
  storage_classes : Except String (List StorageClassRecord) := Except.ok []

/-! ## Domain services (pvc_service.py, namespace_service.py,
quota_service.py) -/

/-- Embedding of `PVCService.list_pvcs`: convert client records to `PVC`
models, substituting "Unknown" for a missing (or empty, via Python's `or`)
capacity and deriving the age in whole days from `now`. -/
def list_pvcs (st : K8sState) (ns : String) (now : Int) : List PVC :=
  (st.pvcs ns).map fun r =>
    { name := r.name
      «namespace» := r.«namespace»
      status := r.status
      capacity := pyOrStr r.capacity "Unknown"
      storage_class := r.storage_class
      access_modes := r.access_modes
      volume_name := r.volume_name
      creation_timestamp := r.creation_timestamp
      age_days := r.creation_timestamp.map (fun created => Int.fdiv (now - created) 86400)
      labels := r.labels
      annotations := r.annotations }

/-- The `Pod` model built from a pod record (the construction repeated in
`get_pvc_pods` and `get_pvcs_with_pods`). -/
def podOfRecord (r : PodRecord) : Pod :=
  { name := r.name
    «namespace» := r.«namespace»
    status := r.status
    node_name := r.node_name
    pvc_claims := r.pvc_claims
    creation_timestamp := r.creation_timestamp
    labels := r.labels }

/-- Embedding of `PVCService.get_pvcs_with_pods`: build the
claim-name → pod-list index from one pod listing, then join each PVC with
the pods mounting it, marking `is_unused` when that list is empty. -/
def get_pvcs_with_pods (st : K8sState) (ns : String) (now : Int) :
    List PVCWithPods :=
  let pvcs := list_pvcs st ns now
  let pod_dicts := st.pods ns
  let pvc_to_pods : List (String × List Pod) :=
    pod_dicts.foldl
      (fun d pod_dict =>
        pod_dict.pvc_claims.foldl
          (fun d pvc_name =>
            dictInsert d pvc_name ((dictGet d pvc_name).getD [] ++ [podOfRecord pod_dict]))
          d)
      []
  pvcs.map fun pvc =>
    let pods := (dictGet pvc_to_pods pvc.name).getD []
    { pvc := pvc, pods := pods, is_unused := pods.length == 0 }

/-- Embedding of `NamespaceService.list_runai_namespaces`: the names with
the "runai-" prefix, sorted ascending (Python's stable `sorted`). -/
def list_runai_namespaces (st : K8sState) : List String :=
  pySortedBy (fun a b => strLt a.data b.data)
    ((st.namespaces.filter (fun r => List.isPrefixOf "runai-".data r.name.data)).map (·.name))

/-- Embedding of `QuotaService._parse_int` applied to `d.get(key)`: `None`
stays `None`, a string that `int(...)` rejects becomes `None`. -/
def _parse_int (value : Option String) : Option Int :=
  match value with
  | none => none
  | some s => pyIntOfString s

/-- Embedding of `QuotaService.get_storage_quota`: `None` when the
namespace has no quota objects; otherwise all objects' `hard`/`used` maps
merged by in-order `dict.update`, `has_storage_quota` set iff the merged
hard limits mention "requests.storage" or "persistentvolumeclaims", and the
derived storage/PVC-count fields read from the merged maps. -/
def get_storage_quota (st : K8sState) (ns : String) : Option ResourceQuota :=
  let quota_dicts := st.quotas ns
  match quota_dicts with
  | [] => none
  | first :: _ =>
    let combined_hard :=
      quota_dicts.foldl (fun acc q => dictUpdate acc q.hard_limits) []
    let combined_used :=
      quota_dicts.foldl (fun acc q => dictUpdate acc q.used) []
    let has_storage_quota :=
      ["requests.storage", "persistentvolumeclaims"].any
        (fun key => dictContains combined_hard key)
    some
      { name := first.name
        «namespace» := ns
        hard_limits := combined_hard
        used := combined_used
        has_storage_quota := has_storage_quota
        storage_limit := dictGet combined_hard "requests.storage"
        storage_used := dictGet combined_used "requests.storage"
        pvc_count_limit := _parse_int (dictGet combined_hard "persistentvolumeclaims")
        pvc_count_used := _parse_int (dictGet combined_used "persistentvolumeclaims") }

/-! ## Recommendation engine (recommendations.py) -/

/-- `RecommendationEngine`: holds the optional capacity parser injected at
construction (the source names this field `capacity` + "_parser"). -/
structure RecommendationEngine where
  capacity_parse_fn : Option (String → Except String Frac) := none

/-- Embedding of `RecommendationEngine._parse_capacity`: `None` without a
parser or for a falsy (absent or empty) capacity; otherwise the parsed
value when parsing succeeds and yields a non-negative number, `None` on
any exception or a negative result. -/
def _parse_capacity (engine : RecommendationEngine) (capacity : Option String) :
    Option Frac :=
  match engine.capacity_parse_fn, capacity with
  | none, _ => none
  | some _, none => none
  | some parser, some c =>
    if c = "" then none
    else
      match parser c with
      | Except.ok v => if (Frac.ofInt 0).ble v then some v else none
      | Except.error _ => none

/-- The per-claim `unused_pvc` recommendation (recommendations.py,
`generate_recommendations`). -/
def unusedPvcRec (engine : RecommendationEngine) (pvc_wp : PVCWithPods) :
    Recommendation :=
  { type := "unused_pvc"
    severity := "warning"
    title := pvc_wp.pvc.name
    description :=
      "(" ++ pvc_wp.pvc.capacity ++
        ") not mounted to any pods. Consider cleanup to reclaim storage."
    pvc_name := some pvc_wp.pvc.name
    capacity := some pvc_wp.pvc.capacity
    capacity_gi := _parse_capacity engine (some pvc_wp.pvc.capacity)
    age_days := pvc_wp.pvc.age_days
    actionable := true }

/-- The rollup `unused_storage_summary` recommendation. -/
def unusedStorageSummaryRec (summary : StorageSummary) (unusedCount : Nat) :
    Recommendation :=
  { type := "unused_storage_summary"
    severity := "info"
    title := formatFixed2 summary.unused_capacity_gi ++ "Gi Available for Reclamation"
    description :=
      toString unusedCount ++
        " PVCs not in use. Consider cleanup to save costs and free quota."
    capacity := some (formatFixed2 summary.unused_capacity_gi ++ "Gi")
    capacity_gi := some summary.unused_capacity_gi
    actionable := true }

/-- The `pending_pvc` recommendation. -/
def pendingPvcRec (summary : StorageSummary) : Recommendation :=
  { type := "pending_pvc"
    severity := "error"
    title := toString summary.pending_pvcs ++ " PVCs Waiting for Provisioning"
    description :=
      "Volumes are not being created. This may indicate storage class issues, quota exhaustion, or insufficient cluster capacity."
    actionable := true }

/-- The `old_unused_pvc` recommendation. -/
def oldUnusedPvcRec (oldCount : Nat) : Recommendation :=
  { type := "old_unused_pvc"
    severity := "warning"
    title := toString oldCount ++ " Orphaned Resources Detected"
    description := "Unused for over 30 days. Likely safe to delete."
    actionable := true }

/-- Python truthiness of `pvc_wp.pvc.age_days and pvc_wp.pvc.age_days > 30`:
false for `None` and for the falsy age `0`, otherwise the comparison. -/
def isOldUnused (pvc_wp : PVCWithPods) : Bool :=
  match pvc_wp.pvc.age_days with
  | none => false
  | some d => d != 0 && d > 30

/-- Embedding of `RecommendationEngine.generate_recommendations`: the
appends of the Python method in order — per-claim unused warnings and the
conditional rollup (both inside `if unused_pvcs:`), the pending error, the
stale-orphan warning. -/
def generate_recommendations (engine : RecommendationEngine)
    (pvcs_with_pods : List PVCWithPods) (summary : StorageSummary)
    (_quota : Option ResourceQuota) : List Recommendation :=
  let recommendations : List Recommendation := []
  let unused_pvcs := pvcs_with_pods.filter (·.is_unused)
  let recommendations :=
    if unused_pvcs.isEmpty then recommendations
    else
      recommendations ++ unused_pvcs.map (unusedPvcRec engine) ++
        (if (Frac.ofInt 0).blt summary.unused_capacity_gi then
          [unusedStorageSummaryRec summary unused_pvcs.length]
        else [])
  let recommendations :=
    recommendations ++
      (if summary.pending_pvcs > 0 then [pendingPvcRec summary] else [])
  let old_unused := unused_pvcs.filter isOldUnused
  recommendations ++
    (if old_unused.isEmpty then [] else [oldUnusedPvcRec old_unused.length])

/-! ## Storage analyzer (storage_analyzer.py) -/

/-- Embedding of `StorageAnalyzer._calculate_summary`: the status/unused
tallies and the single pass that sums capacities (through
`parse_capacity_to_gi`, whose `ValueError` propagates — hence `Except`)
and counts claims per storage class, defaulting an unset class to
"default". -/
def _calculate_summary (ns : String) (pvcs_with_pods : List PVCWithPods)
    (quota : Option ResourceQuota) : Except String StorageSummary :=
  let total_pvcs := pvcs_with_pods.length
  let bound_pvcs := (pvcs_with_pods.filter (fun p => p.pvc.status = "Bound")).length
  let pending_pvcs := (pvcs_with_pods.filter (fun p => p.pvc.status = "Pending")).length
  let unused_pvcs := (pvcs_with_pods.filter (·.is_unused)).length
  (pvcs_with_pods.foldlM
      (fun (acc : Frac × Frac × List (String × Nat)) pvc_wp =>
        (parse_capacity_to_gi pvc_wp.pvc.capacity).map fun capacity_gi =>
          let sc := pyOrStr pvc_wp.pvc.storage_class "default"
          (acc.1.add capacity_gi,
           if pvc_wp.is_unused then acc.2.1.add capacity_gi else acc.2.1,
           dictInsert acc.2.2 sc ((dictGet acc.2.2 sc).getD 0 + 1)))
      (Frac.ofInt 0, Frac.ofInt 0, [])).map
    fun acc =>
      { «namespace» := ns
        total_pvcs := total_pvcs
        bound_pvcs := bound_pvcs
        pending_pvcs := pending_pvcs
        unused_pvcs := unused_pvcs
        total_capacity_gi := acc.1
        unused_capacity_gi := acc.2.1
        storage_classes := acc.2.2
        has_quota := quota.isSome
        quota := quota }

/-- Embedding of `StorageAnalyzer._get_storage_classes`: a storage-class
listing failure is swallowed to an empty list. -/
def _get_storage_classes (st : K8sState) : List StorageClass :=
  match st.storage_classes with
  | Except.error _ => []
  | Except.ok sc_dicts =>
    sc_dicts.map fun sc =>
      { name := sc.name
        provisioner := sc.provisioner
        reclaim_policy := sc.reclaim_policy
        volume_binding_mode := sc.volume_binding_mode
        allow_volume_expansion := sc.allow_volume_expansion
        parameters := sc.parameters }

/-- Embedding of `StorageAnalyzer.analyze_namespace`: enriched claims,
quota, summary (whose capacity-parse error propagates), best-effort storage
classes, recommendations from the engine the analyzer configures with
`parse_capacity_to_gi`, stamped with the current instant. -/
def analyze_namespace (st : K8sState) (ns : String) (now : Int) :
    Except String StorageAnalysis :=
  let pvcs_with_pods := get_pvcs_with_pods st ns now
  let quota := get_storage_quota st ns
  (_calculate_summary ns pvcs_with_pods quota).map fun summary =>
    let storage_classes := _get_storage_classes st
    let recommendations :=
      generate_recommendations { capacity_parse_fn := some parse_capacity_to_gi }
        pvcs_with_pods summary quota
    { «namespace» := ns
      timestamp := now
      summary := summary
      pvcs := pvcs_with_pods
      storage_classes := storage_classes
      recommendations := recommendations }

/-- Embedding of `StorageAnalyzer.get_unused_pvcs`. -/
def get_unused_pvcs (st : K8sState) (ns : String) (now : Int) :
    List PVCWithPods :=
  (get_pvcs_with_pods st ns now).filter (·.is_unused)

/-! ## Dashboard aggregator (dashboard_aggregator.py)

Real time does not exist in this embedding; the 30-second
`asyncio.wait_for` bound on each batch is abstracted into a `timedOut`
oracle saying which batch indices exceed it.  Everything else — batch
partitioning, per-namespace exception capture, uniform timeout digests —
is structural and embedded directly. -/

/-- `DEFAULT_NAMESPACE_BATCH_SIZE` (dashboard_aggregator.py). -/
def DEFAULT_NAMESPACE_BATCH_SIZE : Nat := 20

/-- The per-batch `asyncio.wait_for` timeout, in seconds. -/
def BATCH_TIMEOUT_SECONDS : Frac := Frac.ofInt 30

/-- Embedding of `DashboardAggregator.get_cluster_overview`: sequentially
analyze every Run.ai namespace, accumulating totals and skipping (via the
blanket `except`) any namespace whose analysis raises;
`total_namespaces` counts every discovered namespace regardless. -/
def get_cluster_overview (st : K8sState) (now : Int) : ClusterOverview :=
  let namespaces := list_runai_namespaces st
  let acc :=
    namespaces.foldl
      (fun (acc : Nat × Frac × Frac × Nat × Nat) ns =>
        match analyze_namespace st ns now with
        | Except.error _ => acc
        | Except.ok analysis =>
          (acc.1 + analysis.summary.total_pvcs,
           acc.2.1.add analysis.summary.total_capacity_gi,
           acc.2.2.1.add analysis.summary.unused_capacity_gi,
           acc.2.2.2.1 + analysis.summary.unused_pvcs,
           acc.2.2.2.2 + if analysis.summary.has_quota then 1 else 0))
      (0, Frac.ofInt 0, Frac.ofInt 0, 0, 0)
  { total_namespaces := namespaces.length
    total_pvcs := acc.1
    total_capacity_gi := acc.2.1
    unused_capacity_gi := acc.2.2.1
    total_unused_pvcs := acc.2.2.2.1
    namespaces_with_quota := acc.2.2.2.2
    timestamp := now }

/-- Embedding of `DashboardAggregator._fetch_summary`: project a
namespace's analysis into a digest, catching any exception into an
error-bearing digest for that namespace alone. -/
def _fetch_summary (st : K8sState) (now : Int) (ns : String) : NamespaceSummary :=
  match analyze_namespace st ns now with
  | Except.ok analysis =>
    { «namespace» := ns
      total_pvcs := analysis.summary.total_pvcs
      unused_pvcs := analysis.summary.unused_pvcs
      bound_pvcs := analysis.summary.bound_pvcs
      pending_pvcs := analysis.summary.pending_pvcs
      total_capacity_gi := analysis.summary.total_capacity_gi
      unused_capacity_gi := analysis.summary.unused_capacity_gi
      has_quota := analysis.summary.has_quota }
  | Except.error e => { «namespace» := ns, error := some e }

/-- Fuel-driven worker for `chunks` (the fuel only forces termination;
`chunks` supplies `l.length`, always enough when `bs ≠ 0`). -/
def chunksFuel {α : Type} : Nat → Nat → List α → List (List α)
  | 0, _, _ => []
  | _, _, [] => []
  | fuel + 1, bs, l => l.take bs :: chunksFuel fuel bs (l.drop bs)

/-- The batch partition `[l[i:i+bs] for i in range(0, len(l), bs)]`.
(`bs = 0` would make `range` raise in Python; it returns junk `[]` here and
never occurs: the only batch size used is the positive default.) -/
def chunks {α : Type} (bs : Nat) (l : List α) : List (List α) :=
  if bs = 0 then [] else chunksFuel l.length bs l

/-- The uniform digest every namespace of a timed-out batch receives (the
`except asyncio.TimeoutError` arm). -/
def timeoutDigest (ns : String) : NamespaceSummary :=
  { «namespace» := ns, error := some "Request timeout" }

/-- Embedding of `DashboardAggregator.get_namespace_summaries_async`:
batches processed one at a time; a batch whose index the `timedOut` oracle
marks (the `asyncio.TimeoutError` arm) contributes one uniform
"Request timeout" digest per namespace; otherwise each namespace
contributes `_fetch_summary`'s digest.  (The `isinstance(result,
Exception)` arm is unreachable: `_fetch_summary` already catches every
exception, so `gather` never yields one.) -/
def get_namespace_summaries_async (st : K8sState) (now : Int)
    (timedOut : Nat → Bool) (namespaces : Option (List String))
    (batch_size : Nat) : List NamespaceSummary :=
  let nss := namespaces.getD (list_runai_namespaces st)
  ((chunks batch_size nss).enum).flatMap fun p =>
    if timedOut p.1 then
      p.2.map timeoutDigest
    else
      p.2.map (_fetch_summary st now)

/-- Python truthiness of an optional int (`if limit:`): false for `None`
and for `0`. -/
def optTruthy (o : Option Nat) : Bool :=
  match o with
  | none => false
  | some n => n != 0

/-- `l[:limit]` under a truthy `limit`. -/
def truncateTo {α : Type} (limit : Option Nat) (l : List α) : List α :=
  match limit with
  | none => l
  | some n => l.take n

/-- Embedding of `DashboardAggregator._generate_storage_usage_graph`:
sorted descending by total capacity and truncated only when `limit` is
truthy; stacked used/unused bars. -/
def _generate_storage_usage_graph (summaries : List NamespaceSummary)
    (limit : Option Nat) : GraphData :=
  let summaries :=
    if optTruthy limit then
      truncateTo limit
        (pySortedBy (fun a b => Frac.blt b.total_capacity_gi a.total_capacity_gi)
          summaries)
    else summaries
  { type := "bar"
    labels := summaries.map (·.«namespace»)
    datasets :=
      [{ label := some "Used (GiB)"
         data := summaries.map (fun s => s.total_capacity_gi.sub s.unused_capacity_gi)
         backgroundColor := BgColor.single "#76b900" },
       { label := some "Unused (GiB)"
         data := summaries.map (·.unused_capacity_gi)
         backgroundColor := BgColor.single "#ef4444" }]
    options :=
      { scales :=
          some { x := some { stacked := some true }
                 y := some { stacked := some true, beginAtZero := some true } } } }

/-- Embedding of `DashboardAggregator._generate_top_unused_graph`. -/
def _generate_top_unused_graph (summaries : List NamespaceSummary)
    (limit : Option Nat) : GraphData :=
  let sorted_summaries :=
    pySortedBy (fun a b => decide (b.unused_pvcs < a.unused_pvcs)) summaries
  let sorted_summaries :=
    if optTruthy limit then truncateTo limit sorted_summaries else sorted_summaries
  { type := "bar"
    labels := sorted_summaries.map (·.«namespace»)
    datasets :=
      [{ label := some "Unused PVCs"
         data := sorted_summaries.map (fun s => Frac.ofInt s.unused_pvcs)
         backgroundColor := BgColor.single "#ef4444" }]
    options := { scales := some { y := some { beginAtZero := some true } } } }

/-- Embedding of `DashboardAggregator._generate_storage_class_graph`: the
placeholder doughnut — it never reads `summaries`. -/
def _generate_storage_class_graph (_summaries : List NamespaceSummary) :
    GraphData :=
  { type := "doughnut"
    labels := ["standard", "fast", "archive"]
    datasets :=
      [{ data := [Frac.ofInt 60, Frac.ofInt 30, Frac.ofInt 10]
         backgroundColor := BgColor.multi ["#76b900", "#3b82f6", "#9ca3af"] }] }

/-- Embedding of `DashboardAggregator._generate_unused_capacity_graph`. -/
def _generate_unused_capacity_graph (summaries : List NamespaceSummary)
    (limit : Option Nat) : GraphData :=
  let sorted_summaries :=
    pySortedBy (fun a b => Frac.blt b.unused_capacity_gi a.unused_capacity_gi)
      summaries
  let sorted_summaries :=
    if optTruthy limit then truncateTo limit sorted_summaries else sorted_summaries
  { type := "bar"
    labels := sorted_summaries.map (·.«namespace»)
    datasets :=
      [{ label := some "Unused Capacity (GiB)"
         data := sorted_summaries.map (·.unused_capacity_gi)
         backgroundColor := BgColor.single "#ef4444" }]
    options := { scales := some { y := some { beginAtZero := some true } } } }

/-- Embedding of `DashboardAggregator._generate_pvc_count_graph`. -/
def _generate_pvc_count_graph (summaries : List NamespaceSummary)
    (limit : Option Nat) : GraphData :=
  let sorted_summaries :=
    pySortedBy (fun a b => decide (b.total_pvcs < a.total_pvcs)) summaries
  let sorted_summaries :=
    if optTruthy limit then truncateTo limit sorted_summaries else sorted_summaries
  { type := "bar"
    labels := sorted_summaries.map (·.«namespace»)
    datasets :=
      [{ label := some "Total PVCs"
         data := sorted_summaries.map (fun s => Frac.ofInt s.total_pvcs)
         backgroundColor := BgColor.single "#3b82f6" }]
    options := { scales := some { y := some { beginAtZero := some true } } } }

/-- The five age buckets of the unused-PVC age histogram. -/
structure AgeBuckets where
  d0_7 : Nat := 0
  d8_30 : Nat := 0
  d31_90 : Nat := 0
  d91_180 : Nat := 0
  d180p : Nat := 0
  deriving DecidableEq, Repr

/-- Embedding of `DashboardAggregator._generate_age_distribution_graph`:
re-fetches unused claims per namespace and buckets `age_days or 0`.  (The
per-namespace `except Exception: continue` guard has nothing to catch in
this embedding: `get_unused_pvcs` is total here.) -/
def _generate_age_distribution_graph (st : K8sState) (now : Int)
    (namespaces : Option (List String)) : GraphData :=
  let namespaces :=
    match namespaces with
    | none => list_runai_namespaces st
    | some l => l
  let buckets :=
    namespaces.foldl
      (fun (b : AgeBuckets) ns =>
        (get_unused_pvcs st ns now).foldl
          (fun (b : AgeBuckets) pvc_wp =>
            let age_days := pvc_wp.pvc.age_days.getD 0
            if age_days ≤ 7 then { b with d0_7 := b.d0_7 + 1 }
            else if age_days ≤ 30 then { b with d8_30 := b.d8_30 + 1 }
            else if age_days ≤ 90 then { b with d31_90 := b.d31_90 + 1 }
            else if age_days ≤ 180 then { b with d91_180 := b.d91_180 + 1 }
            else { b with d180p := b.d180p + 1 })
          b)
      {}
  { type := "bar"
    labels := ["0-7d", "8-30d", "31-90d", "91-180d", "180d+"]
    datasets :=
      [{ label := some "Unused PVCs"
         data :=
           [Frac.ofInt buckets.d0_7, Frac.ofInt buckets.d8_30,
            Frac.ofInt buckets.d31_90, Frac.ofInt buckets.d91_180,
            Frac.ofInt buckets.d180p]
         backgroundColor := BgColor.single "#ef4444" }]
    options := { scales := some { y := some { beginAtZero := some true } } } }

/-- The Python exceptions the aggregator's graph path can raise, kept as
distinct kinds so the route's separate `except ValueError` /
`except Exception` handlers stay distinguishable. -/
inductive PyErr where
  | valueError (msg : String)
  | runtimeError (msg : String)
  deriving DecidableEq, Repr

/-- Embedding of `DashboardAggregator.get_graph_data_async`: fetch digests,
keep the error-free ones, then dispatch on the graph kind; an unknown kind
raises `ValueError(f"Unknown graph type: ...")`. -/
def get_graph_data_async (st : K8sState) (now : Int) (timedOut : Nat → Bool)
    (graph_type : String) (namespaces : Option (List String))
    (limit : Option Nat) : Except PyErr GraphData :=
  let summaries :=
    get_namespace_summaries_async st now timedOut namespaces
      DEFAULT_NAMESPACE_BATCH_SIZE
  let valid_summaries := summaries.filter (·.error.isNone)
  if graph_type = "storage_usage" then
    Except.ok (_generate_storage_usage_graph valid_summaries limit)
  else if graph_type = "top_unused" then
    Except.ok (_generate_top_unused_graph valid_summaries limit)
  else if graph_type = "storage_class_dist" then
    Except.ok (_generate_storage_class_graph valid_summaries)
  else if graph_type = "age_distribution" then
    Except.ok (_generate_age_distribution_graph st now namespaces)
  else if graph_type = "unused_capacity" then
    Except.ok (_generate_unused_capacity_graph valid_summaries limit)
  else if graph_type = "pvc_count" then
    Except.ok (_generate_pvc_count_graph valid_summaries limit)
  else
    Except.error (PyErr.valueError ("Unknown graph type: " ++ graph_type))

/-- `fastapi.HTTPException`, by status code and detail. -/
structure HTTPException where
  status_code : Nat
  detail : String
  deriving DecidableEq, Repr

/-- Embedding of the `GET /dashboard/graphs/{graph_type}` route handler
(dashboard_routes.py): a `ValueError` from the aggregator becomes a 400
"Invalid graph type", any other exception a 500. -/
def get_graph_data (st : K8sState) (now : Int) (timedOut : Nat → Bool)
    (graph_type : String) (namespaces : Option (List String))
    (limit : Option Nat) : Except HTTPException GraphData :=
  match get_graph_data_async st now timedOut graph_type namespaces limit with
  | Except.ok graph_data => Except.ok graph_data
  | Except.error (PyErr.valueError _) =>
    Except.error { status_code := 400, detail := "Invalid graph type: " ++ graph_type }
  | Except.error (PyErr.runtimeError _) =>
    Except.error { status_code := 500, detail := "Failed to generate graph data" }

/-! ## The spec's §8 end-to-end scenario, as a sanity check of the
embedding: namespace "tenant-a" with claims A (Bound, 10Gi, mounted),
B (Bound, 5Gi, unmounted, 45 days old) and C (Pending, 2Gi). -/

/-- A cluster whose single namespace holds one claim with the
unparseable capacity string "abc". -/
def malformedCapacityState : K8sState :=
  { namespaces := [{ name := "runai-bad" }]
    pvcs := fun ns =>
      if ns = "runai-bad" then
        [{ name := "bad-pvc", «namespace» := "runai-bad", status := "Bound",
           capacity := some "abc" }]
      else [] }

/-- The spec's cluster-overview scenario: "runai-ok" analyzes fine (one
10Gi claim), "runai-bad" holds a claim whose capacity "abc" makes its
analysis raise. -/
def mixedClusterState : K8sState :=
  { namespaces := [{ name := "runai-ok" }, { name := "runai-bad" }]
    pvcs := fun ns =>
      if ns = "runai-ok" then
        [{ name := "ok-pvc", «namespace» := "runai-ok", status := "Bound",
           capacity := some "10Gi" }]
      else if ns = "runai-bad" then
        [{ name := "bad-pvc", «namespace» := "runai-bad", status := "Bound",
           capacity := some "abc" }]
      else [] }

/-- A cluster whose namespace "runai-q" holds two quota objects with an
overlapping hard-limit key, to exercise last-write-wins merging. -/
def quotaMergeState : K8sState :=
  { namespaces := [{ name := "runai-q" }]
    quotas := fun ns =>
      if ns = "runai-q" then
        [{ name := "q1", «namespace» := "runai-q",
           hard_limits := [("requests.storage", "10Gi"), ("cpu", "4")],
           used := [("requests.storage", "1Gi")] },
         { name := "q2", «namespace» := "runai-q",
           hard_limits := [("requests.storage", "20Gi")],
           used := [] }]
      else [] }

/-- The spec's "tenant-a" scenario cluster; `now` is day 100. -/
def tenantAState : K8sState :=
  { namespaces := [{ name := "tenant-a" }]
    pvcs := fun ns =>
      if ns = "tenant-a" then
        [{ name := "A", «namespace» := "tenant-a", status := "Bound",
           capacity := some "10Gi" },
         { name := "B", «namespace» := "tenant-a", status := "Bound",
           capacity := some "5Gi",
           creation_timestamp := some ((100 - 45) * 86400) },
         { name := "C", «namespace» := "tenant-a", status := "Pending",
           capacity := some "2Gi" }]
      else []
    pods := fun ns =>
      if ns = "tenant-a" then
        [{ name := "w1", «namespace» := "tenant-a", status := "Running",
           pvc_claims := ["A"] }]
      else [] }

/- Note: the code counts the unmounted Pending claim C as unused as well
(no pod mounts it), so the unused tally is 2 and the unused capacity 7 —
the spec's §8 sketch of this scenario (`unused_pvcs=1`, 5.0 GiB) ignores
that; no frozen claim depends on those two numbers. -/
/-! ## Sanity checks of the embedding, by evaluation -/

example : formatFixed2 ⟨5, 1⟩ = "5.00" := by decide
example : formatFixed2 ⟨1, 2⟩ = "0.50" := by decide
example : formatFixed2 ⟨512, 1024⟩ = "0.50" := by decide
example : formatFixed2 ⟨1, 3⟩ = "0.33" := by decide

example : pyFloat "2" = some ⟨2, 1⟩ := by decide
example : pyFloat " 512 " = some ⟨512, 1⟩ := by decide
example : pyFloat "2.5" = some ⟨25, 10⟩ := by decide
example : pyFloat "1e3" = some ⟨1000, 1⟩ := by decide
example : pyFloat "-4.25" = some ⟨-425, 100⟩ := by decide
example : pyFloat "+.5" = some ⟨5, 10⟩ := by decide
example : pyFloat "1.5e-2" = some ⟨15, 1000⟩ := by decide
example : pyFloat "100M" = none := by decide
example : pyFloat "abc" = none := by decide
example : pyFloat "" = none := by decide
example : pyFloat "." = none := by decide
example : pyFloat "1e" = none := by decide
example : parse_capacity_to_gi "2Ti" = Except.ok ⟨2048, 1⟩ := by decide
example : parse_capacity_to_gi "512Mi" = Except.ok ⟨512, 1024⟩ := by decide
example : (parse_capacity_to_gi "512Mi").toOption.map (Frac.eqv ⟨1, 2⟩) =
    some true := by decide
example : parse_capacity_to_gi "100Gi" = Except.ok ⟨100, 1⟩ := by decide
example : parse_capacity_to_gi "3Ki" = Except.ok ⟨3, 1048576⟩ := by decide
example : parse_capacity_to_gi "Unknown" = Except.ok ⟨0, 1⟩ := by decide
example : parse_capacity_to_gi "" = Except.ok ⟨0, 1⟩ := by decide
example : parse_capacity_to_gi "1073741824" = Except.ok ⟨1073741824, 1073741824⟩ := by
  decide
example : parse_capacity_to_gi "100M" =
    Except.error "could not convert string to float" := by decide
example : parse_capacity_to_gi "abc" =
    Except.error "could not convert string to float" := by decide
example : wellFormedCapacity "2Ti" = true := by decide
example : wellFormedCapacity "100M" = false := by decide

example :
    (analyze_namespace tenantAState "tenant-a" (100 * 86400)).map
        (fun a =>
          (a.summary.total_pvcs, a.summary.bound_pvcs, a.summary.pending_pvcs,
           a.summary.unused_pvcs, a.recommendations.map (·.type))) =
      Except.ok
        (3, 2, 1, 2,
         ["unused_pvc", "unused_pvc", "unused_storage_summary", "pending_pvc",
          "old_unused_pvc"]) := by
  decide

example :
    (analyze_namespace tenantAState "tenant-a" (100 * 86400)).map
        (fun a => (a.summary.total_capacity_gi, a.summary.unused_capacity_gi)) =
      Except.ok (⟨17, 1⟩, ⟨7, 1⟩) := by
  decide

example :
    (analyze_namespace tenantAState "tenant-a" (100 * 86400)).map
        (fun a => a.recommendations.map (fun r => (r.pvc_name, r.capacity_gi))) =
      Except.ok
        [(some "B", some ⟨5, 1⟩), (some "C", some ⟨2, 1⟩), (none, some ⟨7, 1⟩),
         (none, none), (none, none)] := by
  decide


/-! # Theorems

## Semantics of `Frac`: the cross-multiplication operations compute the
rational arithmetic they claim to (denominators are positive throughout
the embedding). -/

namespace Frac

theorem toRat_ofInt (n : Int) : (ofInt n).toRat = n := by
  simp [ofInt, toRat]

theorem toRat_add (a b : Frac) (ha : a.den ≠ 0) (hb : b.den ≠ 0) :
    (a.add b).toRat = a.toRat + b.toRat := by
  have ha : (a.den : ℚ) ≠ 0 := Int.cast_ne_zero.mpr ha
  have hb : (b.den : ℚ) ≠ 0 := Int.cast_ne_zero.mpr hb
  simp only [add, toRat]
  push_cast
  field_simp

theorem toRat_mul (a b : Frac) (ha : a.den ≠ 0) (hb : b.den ≠ 0) :
    (a.mul b).toRat = a.toRat * b.toRat := by
  have ha : (a.den : ℚ) ≠ 0 := Int.cast_ne_zero.mpr ha
  have hb : (b.den : ℚ) ≠ 0 := Int.cast_ne_zero.mpr hb
  simp only [mul, toRat]
  push_cast
  field_simp

theorem toRat_sub (a b : Frac) (ha : a.den ≠ 0) (hb : b.den ≠ 0) :
    (a.sub b).toRat = a.toRat - b.toRat := by
  have ha : (a.den : ℚ) ≠ 0 := Int.cast_ne_zero.mpr ha
  have hb : (b.den : ℚ) ≠ 0 := Int.cast_ne_zero.mpr hb
  simp only [sub, toRat]
  push_cast
  field_simp
  ring

theorem toRat_div (a b : Frac) (ha : a.den ≠ 0) (hb : b.num ≠ 0)
    (hbd : b.den ≠ 0) : (a.div b).toRat = a.toRat / b.toRat := by
  have ha : (a.den : ℚ) ≠ 0 := Int.cast_ne_zero.mpr ha
  have hb : (b.num : ℚ) ≠ 0 := Int.cast_ne_zero.mpr hb
  have hbd : (b.den : ℚ) ≠ 0 := Int.cast_ne_zero.mpr hbd
  simp only [div, toRat]
  push_cast
  field_simp

theorem eqv_iff_toRat (a b : Frac) (ha : 0 < a.den) (hb : 0 < b.den) :
    a.eqv b = true ↔ a.toRat = b.toRat := by
  have ha : (0 : ℚ) < (a.den : ℚ) := by exact_mod_cast ha
  have hb : (0 : ℚ) < (b.den : ℚ) := by exact_mod_cast hb
  rw [eqv, decide_eq_true_eq, toRat, toRat, div_eq_div_iff (ne_of_gt ha) (ne_of_gt hb)]
  constructor
  · intro h; exact_mod_cast congrArg (fun z : Int => (z : ℚ)) h
  · intro h; exact_mod_cast h

theorem blt_iff_toRat (a b : Frac) (ha : 0 < a.den) (hb : 0 < b.den) :
    a.blt b = true ↔ a.toRat < b.toRat := by
  have ha' : (0 : ℚ) < (a.den : ℚ) := by exact_mod_cast ha
  have hb' : (0 : ℚ) < (b.den : ℚ) := by exact_mod_cast hb
  rw [blt, decide_eq_true_eq, toRat, toRat, div_lt_div_iff₀ ha' hb']
  constructor
  · intro h; exact_mod_cast h
  · intro h; exact_mod_cast h

theorem ble_iff_toRat (a b : Frac) (ha : 0 < a.den) (hb : 0 < b.den) :
    a.ble b = true ↔ a.toRat ≤ b.toRat := by
  have ha' : (0 : ℚ) < (a.den : ℚ) := by exact_mod_cast ha
  have hb' : (0 : ℚ) < (b.den : ℚ) := by exact_mod_cast hb
  rw [ble, decide_eq_true_eq, toRat, toRat, div_le_div_iff₀ ha' hb']
  constructor
  · intro h; exact_mod_cast h
  · intro h; exact_mod_cast h

end Frac

/-! ## C1 — `parse_capacity_to_gi` and the spec's total unit table -/

/-- C1, counterexample: the claim says every string that is neither a
recognized `<number><unit>` form nor empty/"Unknown" is "interpreted as
raw bytes"; but on "100M" (an unrecognized unit suffix) `float("100M")`
raises `ValueError`, so `parse_capacity_to_gi` raises instead of returning
a value — it is not total. -/
theorem parse_capacity_to_gi_raises_on_unrecognized_unit :
    parse_capacity_to_gi "100M" =
      Except.error "could not convert string to float" ∧
    wellFormedCapacity "100M" = false := by
  decide

/-- C1, amended: on every capacity string whose numeric part is a float
literal (`wellFormedCapacity`), `parse_capacity_to_gi` returns exactly the
spec's unit-table value (`specCapacityValue`: Ti×1024, Gi×1, Mi÷1024,
Ki÷1024², raw bytes ÷1024³, 0.0 for empty/"Unknown"); on every other
string it raises `ValueError` instead. -/
theorem parse_capacity_to_gi_wellformed_spec (s : String) :
    (wellFormedCapacity s = true →
      parse_capacity_to_gi s = Except.ok (specCapacityValue s)) ∧
    (wellFormedCapacity s = false →
      parse_capacity_to_gi s = Except.error "could not convert string to float") := by
  unfold wellFormedCapacity parse_capacity_to_gi specCapacityValue
  by_cases h0 : s = "" ∨ s = "Unknown"
  · simp [h0]
  · simp only [h0, if_false]
    by_cases hTi : strEndsWith (pyStrip s.data) ['T', 'i'] = true
    · cases hF : pyFloatChars (strDropRight (pyStrip s.data) 2) with
      | none => simp [hTi, hF]
      | some v => simp [hTi, hF]
    · by_cases hGi : strEndsWith (pyStrip s.data) ['G', 'i'] = true
      · cases hF : pyFloatChars (strDropRight (pyStrip s.data) 2) with
        | none => simp [hTi, hGi, hF]
        | some v => simp [hTi, hGi, hF]
      · by_cases hMi : strEndsWith (pyStrip s.data) ['M', 'i'] = true
        · cases hF : pyFloatChars (strDropRight (pyStrip s.data) 2) with
          | none => simp [hTi, hGi, hMi, hF]
          | some v => simp [hTi, hGi, hMi, hF]
        · by_cases hKi : strEndsWith (pyStrip s.data) ['K', 'i'] = true
          · cases hF : pyFloatChars (strDropRight (pyStrip s.data) 2) with
            | none => simp [hTi, hGi, hMi, hKi, hF]
            | some v => simp [hTi, hGi, hMi, hKi, hF]
          · cases hF : pyFloatChars (pyStrip s.data) with
            | none => simp [hTi, hGi, hMi, hKi, hF]
            | some v => simp [hTi, hGi, hMi, hKi, hF]

/-- C1, witness: the amended theorem applied at "2Ti" (2048 GiB), at the
ill-formed "100M", and at "Unknown". -/
theorem parse_capacity_to_gi_wellformed_spec_witness :
    parse_capacity_to_gi "2Ti" = Except.ok (specCapacityValue "2Ti") ∧
    parse_capacity_to_gi "100M" =
      Except.error "could not convert string to float" ∧
    parse_capacity_to_gi "Unknown" = Except.ok (specCapacityValue "Unknown") :=
  ⟨(parse_capacity_to_gi_wellformed_spec "2Ti").1 (by decide),
   (parse_capacity_to_gi_wellformed_spec "100M").2 (by decide),
   (parse_capacity_to_gi_wellformed_spec "Unknown").1 (by decide)⟩


/-! ## C2 — malformed capacities in `analyze_namespace` -/

theorem exceptIsOk_map {α β : Type} (f : α → β) (e : Except String α) :
    exceptIsOk (e.map f) = exceptIsOk e := by
  cases e <;> rfl

theorem foldlM_except_isOk {α β : Type} (f : β → α → Except String β)
    (g : α → Bool) (hf : ∀ b a, exceptIsOk (f b a) = g a) (l : List α)
    (acc : β) : exceptIsOk (l.foldlM f acc) = l.all g := by
  induction l generalizing acc with
  | nil => rfl
  | cons a t ih =>
    rw [List.foldlM_cons]
    cases hfa : f acc a with
    | error e =>
      have hg := hf acc a
      rw [hfa] at hg
      simp only [List.all_cons, ← hg]
      rfl
    | ok b =>
      have hg := hf acc a
      rw [hfa] at hg
      simp only [List.all_cons, ← hg, exceptIsOk, Bool.true_and]
      exact ih b

/-- `_calculate_summary` finishes without raising exactly when every
claim's capacity parses. -/
theorem calculate_summary_isOk (ns : String) (pvcs_with_pods : List PVCWithPods)
    (quota : Option ResourceQuota) :
    exceptIsOk (_calculate_summary ns pvcs_with_pods quota) =
      pvcs_with_pods.all
        (fun p => exceptIsOk (parse_capacity_to_gi p.pvc.capacity)) := by
  unfold _calculate_summary
  rw [exceptIsOk_map]
  refine foldlM_except_isOk _ _ (fun b a => ?_) pvcs_with_pods _
  cases h : parse_capacity_to_gi a.pvc.capacity <;> simp [h, exceptIsOk, Except.map]

/-- `analyze_namespace` raises exactly when `_calculate_summary` does. -/
theorem analyze_namespace_isOk (st : K8sState) (ns : String) (now : Int) :
    exceptIsOk (analyze_namespace st ns now) =
      (get_pvcs_with_pods st ns now).all
        (fun p => exceptIsOk (parse_capacity_to_gi p.pvc.capacity)) := by
  unfold analyze_namespace
  rw [exceptIsOk_map, calculate_summary_isOk]

/-- C2, counterexample: a namespace holding one claim with capacity "abc"
(which the parser rejects) makes `analyze_namespace` raise `ValueError`
instead of returning an analysis with the capacity degraded to 0.0. -/
theorem analyze_namespace_aborts_on_malformed_capacity :
    exceptIsOk (parse_capacity_to_gi "abc") = false ∧
    analyze_namespace malformedCapacityState "runai-bad" 0 =
      Except.error "could not convert string to float" := by
  decide

/-- C2, amended: `analyze_namespace` returns a complete analysis iff every
claim's capacity string parses; a claim whose capacity the float parser
rejects aborts the whole namespace's analysis with the propagated
`ValueError`.  Only the degraded forms the parser itself maps to 0.0 —
empty and "Unknown" — are survived, and unparseable quota integers still
degrade to `None`. -/
theorem analyze_namespace_malformed_behaviour (st : K8sState) (ns : String)
    (now : Int) :
    ((∃ p ∈ get_pvcs_with_pods st ns now,
        exceptIsOk (parse_capacity_to_gi p.pvc.capacity) = false) →
      exceptIsOk (analyze_namespace st ns now) = false) ∧
    ((∀ p ∈ get_pvcs_with_pods st ns now,
        exceptIsOk (parse_capacity_to_gi p.pvc.capacity) = true) →
      exceptIsOk (analyze_namespace st ns now) = true) ∧
    parse_capacity_to_gi "" = Except.ok (Frac.ofInt 0) ∧
    parse_capacity_to_gi "Unknown" = Except.ok (Frac.ofInt 0) ∧
    _parse_int (some "10Gi") = none := by
  refine ⟨?_, ?_, by decide, by decide, by decide⟩
  · intro h
    rw [analyze_namespace_isOk]
    rcases h with ⟨p, hp, hbad⟩
    exact List.all_eq_false.mpr ⟨p, hp, by rw [hbad]; decide⟩
  · intro h
    rw [analyze_namespace_isOk]
    exact List.all_eq_true.mpr h

/-- C2, witness: the amended theorem applied to the malformed-capacity
cluster (analysis aborts) and to the "tenant-a" cluster (all capacities
parse, analysis completes). -/
theorem analyze_namespace_malformed_behaviour_witness :
    exceptIsOk (analyze_namespace malformedCapacityState "runai-bad" 0) = false ∧
    exceptIsOk (analyze_namespace tenantAState "tenant-a" (100 * 86400)) = true :=
  ⟨(analyze_namespace_malformed_behaviour malformedCapacityState "runai-bad" 0).1
      (by decide),
   (analyze_namespace_malformed_behaviour tenantAState "tenant-a" (100 * 86400)).2.1
      (by decide)⟩

/-! ## C3 — recommendation ordering -/

/-- The list `generate_recommendations` builds, written as four ordered
segments.  Shared basis for the ordering and malformed-capacity claims. -/
theorem generate_recommendations_eq (engine : RecommendationEngine)
    (pvcs_with_pods : List PVCWithPods) (summary : StorageSummary)
    (quota : Option ResourceQuota) :
    generate_recommendations engine pvcs_with_pods summary quota =
      (pvcs_with_pods.filter (·.is_unused)).map (unusedPvcRec engine) ++
      (if pvcs_with_pods.filter (·.is_unused) ≠ [] ∧
          (Frac.ofInt 0).blt summary.unused_capacity_gi = true then
        [unusedStorageSummaryRec summary
          (pvcs_with_pods.filter (·.is_unused)).length]
      else []) ++
      (if summary.pending_pvcs > 0 then [pendingPvcRec summary] else []) ++
      (if (pvcs_with_pods.filter (·.is_unused)).filter isOldUnused ≠ [] then
        [oldUnusedPvcRec
          ((pvcs_with_pods.filter (·.is_unused)).filter isOldUnused).length]
      else []) := by
  unfold generate_recommendations
  by_cases hu : (pvcs_with_pods.filter (·.is_unused)).isEmpty = true
  · have he : pvcs_with_pods.filter (·.is_unused) = [] := by
      simpa using hu
    simp [hu, he]
  · have hne : pvcs_with_pods.filter (·.is_unused) ≠ [] := by
      simpa using hu
    by_cases hb : (Frac.ofInt 0).blt summary.unused_capacity_gi = true <;>
      [simp [hu, hne, hb, List.append_assoc];
       simp [hu, hne, hb, List.append_assoc]] <;>
    · by_cases hex : ∃ x ∈ pvcs_with_pods, isOldUnused x = true ∧ x.is_unused = true
      · have h1 : ¬ ∀ a ∈ pvcs_with_pods,
            isOldUnused a = true → a.is_unused = false := by
          rcases hex with ⟨x, hx, hold, hun⟩
          intro hall
          have hf := hall x hx hold
          simp [hun] at hf
        rw [if_neg h1, if_pos hex]
      · have h2 : ∀ a ∈ pvcs_with_pods,
            isOldUnused a = true → a.is_unused = false := by
          intro a ha hold
          by_contra hcon
          exact hex ⟨a, ha, hold, by simpa using hcon⟩
        rw [if_pos h2, if_neg hex]

/-- C3, counterexample: a mounted (hence not unused) claim together with a
summary whose `unused_capacity_gi` is 5 > 0 produces *no* recommendation at
all — in particular no `unused_storage_summary`, although the claim says
one is emitted iff the summary's unused capacity is positive. -/
theorem unused_storage_summary_requires_unused_claim :
    (Frac.ofInt 0).blt
        ({ «namespace» := "ns", unused_capacity_gi := ⟨5, 1⟩ } :
          StorageSummary).unused_capacity_gi = true ∧
    generate_recommendations { capacity_parse_fn := some parse_capacity_to_gi }
        [{ pvc := { name := "A", «namespace» := "ns", status := "Bound",
                    capacity := "10Gi" },
           pods := [{ name := "w", «namespace» := "ns", status := "Running",
                      pvc_claims := ["A"] }],
           is_unused := false }]
        { «namespace» := "ns", unused_capacity_gi := ⟨5, 1⟩ } none = [] := by
  decide

/-- C3, amended: recommendations come in the fixed order — one
`unused_pvc` warning per unused claim in input order carrying its parsed
capacity, then a single `unused_storage_summary` info emitted iff there is
at least one unused claim *and* the summary's unused capacity is > 0, then
a single `pending_pvc` error iff the pending count is > 0, then a single
`old_unused_pvc` warning iff some unused claim has (truthy) age > 30 days —
and nothing else. -/
theorem generate_recommendations_order (engine : RecommendationEngine)
    (pvcs_with_pods : List PVCWithPods) (summary : StorageSummary)
    (quota : Option ResourceQuota) :
    (generate_recommendations engine pvcs_with_pods summary quota =
      (pvcs_with_pods.filter (·.is_unused)).map (unusedPvcRec engine) ++
      (if pvcs_with_pods.filter (·.is_unused) ≠ [] ∧
          (Frac.ofInt 0).blt summary.unused_capacity_gi = true then
        [unusedStorageSummaryRec summary
          (pvcs_with_pods.filter (·.is_unused)).length]
      else []) ++
      (if summary.pending_pvcs > 0 then [pendingPvcRec summary] else []) ++
      (if (pvcs_with_pods.filter (·.is_unused)).filter isOldUnused ≠ [] then
        [oldUnusedPvcRec
          ((pvcs_with_pods.filter (·.is_unused)).filter isOldUnused).length]
      else [])) ∧
    (∀ p, (unusedPvcRec engine p).type = "unused_pvc" ∧
      (unusedPvcRec engine p).severity = "warning" ∧
      (unusedPvcRec engine p).capacity_gi =
        _parse_capacity engine (some p.pvc.capacity)) ∧
    (∀ n, (unusedStorageSummaryRec summary n).type = "unused_storage_summary" ∧
      (unusedStorageSummaryRec summary n).severity = "info") ∧
    ((pendingPvcRec summary).type = "pending_pvc" ∧
      (pendingPvcRec summary).severity = "error") ∧
    (∀ n, (oldUnusedPvcRec n).type = "old_unused_pvc" ∧
      (oldUnusedPvcRec n).severity = "warning") ∧
    (∀ p, isOldUnused p = true ↔
      ∃ d, p.pvc.age_days = some d ∧ d > 30) := by
  refine ⟨generate_recommendations_eq engine pvcs_with_pods summary quota,
    fun p => ⟨rfl, rfl, rfl⟩, fun n => ⟨rfl, rfl⟩, ⟨rfl, rfl⟩,
    fun n => ⟨rfl, rfl⟩, fun p => ?_⟩
  cases h : p.pvc.age_days with
  | none => simp [isOldUnused, h]
  | some d =>
    simp only [isOldUnused, h, Bool.and_eq_true, bne_iff_ne, ne_eq,
      decide_eq_true_eq]
    constructor
    · rintro ⟨hd0, hd⟩
      exact ⟨d, rfl, hd⟩
    · rintro ⟨e, he, hd⟩
      cases he
      exact ⟨by omega, hd⟩

/-! ## C4 — batched namespace digests with a per-batch timeout -/

theorem chunksFuel_succ_cons {α : Type} (f bs : Nat) (x : α) (xs : List α) :
    chunksFuel (f + 1) bs (x :: xs) =
      (x :: xs).take bs :: chunksFuel f bs ((x :: xs).drop bs) := rfl

theorem chunksFuel_nil {α : Type} (f bs : Nat) :
    chunksFuel f bs ([] : List α) = [] := by
  cases f <;> rfl

theorem chunksFuel_fuel_irrelevant {α : Type} (bs : Nat) (hbs : bs ≠ 0) :
    ∀ (f1 f2 : Nat) (l : List α), l.length ≤ f1 → l.length ≤ f2 →
      chunksFuel f1 bs l = chunksFuel f2 bs l := by
  intro f1
  induction f1 with
  | zero =>
    intro f2 l h1 _
    have : l = [] := List.eq_nil_of_length_eq_zero (Nat.le_zero.mp h1)
    subst this
    rw [chunksFuel_nil, chunksFuel_nil]
  | succ f ih =>
    intro f2 l h1 h2
    cases l with
    | nil => rw [chunksFuel_nil, chunksFuel_nil]
    | cons x xs =>
      have hb1 : 1 ≤ bs := Nat.one_le_iff_ne_zero.mpr hbs
      have hx1 : xs.length + 1 ≤ f + 1 := by simpa using h1
      cases f2 with
      | zero => simp at h2
      | succ f2 =>
        have hx2 : xs.length + 1 ≤ f2 + 1 := by simpa using h2
        rw [chunksFuel_succ_cons, chunksFuel_succ_cons]
        have hd : ((x :: xs).drop bs).length = xs.length + 1 - bs := by
          simp
        rw [ih f2 ((x :: xs).drop bs) (by omega) (by omega)]

theorem chunks_nil {α : Type} (bs : Nat) : chunks bs ([] : List α) = [] := by
  unfold chunks
  split <;> rfl

theorem chunks_cons {α : Type} (bs : Nat) (hbs : bs ≠ 0) (l : List α)
    (hl : l ≠ []) : chunks bs l = l.take bs :: chunks bs (l.drop bs) := by
  unfold chunks
  rw [if_neg hbs, if_neg hbs]
  cases l with
  | nil => exact absurd rfl hl
  | cons x xs =>
    have hb1 : 1 ≤ bs := Nat.one_le_iff_ne_zero.mpr hbs
    show chunksFuel (xs.length + 1) bs (x :: xs) = _
    rw [chunksFuel_succ_cons]
    congr 1
    have hd : ((x :: xs).drop bs).length = xs.length + 1 - bs := by
      simp
    exact chunksFuel_fuel_irrelevant bs hbs xs.length ((x :: xs).drop bs).length
      ((x :: xs).drop bs) (by omega) (Nat.le_refl _)

theorem chunks_length_le {α : Type} (bs : Nat) (hbs : bs ≠ 0) :
    ∀ (n : Nat) (l : List α), l.length ≤ n →
      ∀ b ∈ chunks bs l, b.length ≤ bs := by
  intro n
  induction n with
  | zero =>
    intro l h1 b hb
    have : l = [] := List.eq_nil_of_length_eq_zero (Nat.le_zero.mp h1)
    subst this
    rw [chunks_nil] at hb
    cases hb
  | succ n ih =>
    intro l h1 b hb
    rcases eq_or_ne l [] with rfl | hl
    · rw [chunks_nil] at hb
      cases hb
    · have hb1 : 1 ≤ bs := Nat.one_le_iff_ne_zero.mpr hbs
      have hl1 : 0 < l.length := List.length_pos.mpr hl
      rw [chunks_cons bs hbs l hl] at hb
      rcases List.mem_cons.mp hb with rfl | hb
      · exact List.length_take_le bs l
      · have hd : (l.drop bs).length = l.length - bs := by simp
        exact ih (l.drop bs) (by omega) b hb

theorem gns_aux (st : K8sState) (now : Int) (bs : Nat) (hbs : bs ≠ 0) :
    ∀ (n : Nat) (nss : List String), nss.length ≤ n →
      ∀ (timedOut : Nat → Bool) (k i : Nat),
        (((chunks bs nss).enumFrom k).flatMap fun p =>
            if timedOut p.1 then p.2.map timeoutDigest
            else p.2.map (_fetch_summary st now))[i]? =
          (nss[i]?).map fun ns =>
            if timedOut (k + i / bs) then timeoutDigest ns
            else _fetch_summary st now ns := by
  intro n
  induction n with
  | zero =>
    intro nss h1 timedOut k i
    have : nss = [] := List.eq_nil_of_length_eq_zero (Nat.le_zero.mp h1)
    subst this
    simp [chunks_nil]
  | succ n ih =>
    intro nss h1 timedOut k i
    rcases eq_or_ne nss [] with rfl | hl
    · simp [chunks_nil]
    · have hb1 : 1 ≤ bs := Nat.one_le_iff_ne_zero.mpr hbs
      have hlen0 : 0 < nss.length := List.length_pos.mpr hl
      rw [chunks_cons bs hbs nss hl]
      have hhead :
          (((nss.take bs :: chunks bs (nss.drop bs)).enumFrom k).flatMap fun p =>
              if timedOut p.1 then p.2.map timeoutDigest
              else p.2.map (_fetch_summary st now)) =
            ((nss.take bs).map fun ns =>
              if timedOut k then timeoutDigest ns
              else _fetch_summary st now ns) ++
            (((chunks bs (nss.drop bs)).enumFrom (k + 1)).flatMap fun p =>
              if timedOut p.1 then p.2.map timeoutDigest
              else p.2.map (_fetch_summary st now)) := by
        show (if timedOut k then (nss.take bs).map timeoutDigest
              else (nss.take bs).map (_fetch_summary st now)) ++ _ = _ ++ _
        congr 1
        by_cases hk : timedOut k = true
        · simp [hk]
        · simp at hk
          simp [hk]
      rw [hhead]
      have hAlen :
          ((nss.take bs).map fun ns =>
            if timedOut k then timeoutDigest ns
            else _fetch_summary st now ns).length = min bs nss.length := by
        simp
      by_cases hi : i < min bs nss.length
      · rw [List.getElem?_append_left (by rw [hAlen]; exact hi)]
        rw [List.getElem?_map]
        rw [List.getElem?_take_of_lt (by omega)]
        have hdiv : i / bs = 0 := Nat.div_eq_of_lt (by omega)
        rw [hdiv, Nat.add_zero]
      · by_cases hsmall : nss.length ≤ bs
        · have hnone : nss[i]? = none :=
            List.getElem?_eq_none_iff.mpr (by omega)
          have hdrop : nss.drop bs = [] := by
            apply List.eq_nil_of_length_eq_zero
            simp
            omega
          rw [List.getElem?_append_right (by rw [hAlen]; omega)]
          rw [hdrop, chunks_nil, hnone]
          simp
        · have hmin : min bs nss.length = bs := by omega
          rw [List.getElem?_append_right (by rw [hAlen]; omega)]
          rw [hAlen, hmin]
          have hdlen : (nss.drop bs).length = nss.length - bs := by simp
          rw [ih (nss.drop bs) (by omega) timedOut (k + 1) (i - bs)]
          rw [List.getElem?_drop]
          have hof : bs + (i - bs) = i := by omega
          rw [hof]
          have hdiv : i / bs = (i - bs) / bs + 1 :=
            Nat.div_eq_sub_div (by omega) (by omega)
          rw [hdiv]
          have hidx : k + 1 + (i - bs) / bs = k + ((i - bs) / bs + 1) := by
            omega
          rw [hidx]

theorem fetch_summary_namespace (st : K8sState) (now : Int) (ns : String) :
    (_fetch_summary st now ns).«namespace» = ns := by
  unfold _fetch_summary
  cases analyze_namespace st ns now <;> rfl

/-- C4: namespaces are partitioned into batches of at most `batch_size`
(default `DEFAULT_NAMESPACE_BATCH_SIZE = 20`) processed in order; the
result holds exactly one digest per input namespace, in order; a namespace
in a batch whose single timeout fired gets the uniform "Request timeout"
error digest (non-null `error`), and a namespace in any other batch gets
exactly the digest its own `_fetch_summary` produces — one namespace's
failure is isolated to its own digest and one batch's timeout to that
batch. -/
theorem get_namespace_summaries_async_batching (st : K8sState) (now : Int)
    (timedOut : Nat → Bool) (nss : List String) (bs : Nat) (hbs : 0 < bs) :
    ((get_namespace_summaries_async st now timedOut (some nss) bs).map
        (·.«namespace») = nss) ∧
    (∀ i : Nat,
      (get_namespace_summaries_async st now timedOut (some nss) bs)[i]? =
        (nss[i]?).map fun ns =>
          if timedOut (i / bs) then timeoutDigest ns
          else _fetch_summary st now ns) ∧
    (∀ b ∈ chunks bs nss, b.length ≤ bs) ∧
    (get_namespace_summaries_async st now timedOut none bs =
      get_namespace_summaries_async st now timedOut
        (some (list_runai_namespaces st)) bs) ∧
    DEFAULT_NAMESPACE_BATCH_SIZE = 20 := by
  have hbs0 : bs ≠ 0 := Nat.pos_iff_ne_zero.mp hbs
  have hpt : ∀ i : Nat,
      (get_namespace_summaries_async st now timedOut (some nss) bs)[i]? =
        (nss[i]?).map fun ns =>
          if timedOut (i / bs) then timeoutDigest ns
          else _fetch_summary st now ns := by
    intro i
    show (((chunks bs nss).enumFrom 0).flatMap fun p =>
        if timedOut p.1 then p.2.map timeoutDigest
        else p.2.map (_fetch_summary st now))[i]? = _
    have h := gns_aux st now bs hbs0 nss.length nss (Nat.le_refl _) timedOut 0 i
    rw [Nat.zero_add] at h
    exact h
  refine ⟨?_, hpt, chunks_length_le bs hbs0 nss.length nss (Nat.le_refl _),
    rfl, rfl⟩
  apply List.ext_getElem?_iff.mpr
  intro i
  rw [List.getElem?_map, hpt i]
  cases h : nss[i]? with
  | none => rfl
  | some ns =>
    by_cases hk : timedOut (i / bs) = true
    · simp [hk, timeoutDigest]
    · simp at hk
      simp [hk, fetch_summary_namespace]

/-- C4, witness: three namespaces in batches of two with the second batch
timed out — the digest list lines up one-to-one with the input. -/
theorem get_namespace_summaries_async_batching_witness :
    (get_namespace_summaries_async {} 0 (fun i => i == 1)
        (some ["runai-a", "runai-b", "runai-c"]) 2).map (·.«namespace») =
      ["runai-a", "runai-b", "runai-c"] :=
  (get_namespace_summaries_async_batching {} 0 (fun i => i == 1)
    ["runai-a", "runai-b", "runai-c"] 2 (by decide)).1

/-! ## C5 — cluster overview under per-namespace failures -/

theorem cluster_overview_fold (st : K8sState) (now : Int) :
    ∀ (l : List String) (acc : Nat × Frac × Frac × Nat × Nat),
      l.foldl
        (fun (acc : Nat × Frac × Frac × Nat × Nat) ns =>
          match analyze_namespace st ns now with
          | Except.error _ => acc
          | Except.ok analysis =>
            (acc.1 + analysis.summary.total_pvcs,
             acc.2.1.add analysis.summary.total_capacity_gi,
             acc.2.2.1.add analysis.summary.unused_capacity_gi,
             acc.2.2.2.1 + analysis.summary.unused_pvcs,
             acc.2.2.2.2 + if analysis.summary.has_quota then 1 else 0)) acc =
      (acc.1 +
        (((l.filterMap fun ns => (analyze_namespace st ns now).toOption).map
          fun a => a.summary.total_pvcs).sum),
       ((l.filterMap fun ns => (analyze_namespace st ns now).toOption).foldl
         (fun c a => c.add a.summary.total_capacity_gi) acc.2.1),
       ((l.filterMap fun ns => (analyze_namespace st ns now).toOption).foldl
         (fun c a => c.add a.summary.unused_capacity_gi) acc.2.2.1),
       acc.2.2.2.1 +
        (((l.filterMap fun ns => (analyze_namespace st ns now).toOption).map
          fun a => a.summary.unused_pvcs).sum),
       acc.2.2.2.2 +
        ((l.filterMap fun ns => (analyze_namespace st ns now).toOption).filter
          (fun a => a.summary.has_quota)).length) := by
  intro l
  induction l with
  | nil =>
    intro acc
    obtain ⟨a1, a2, a3, a4, a5⟩ := acc
    simp
  | cons ns t ih =>
    intro acc
    rw [List.foldl_cons]
    cases h : analyze_namespace st ns now with
    | error e =>
      simp only [h]
      rw [ih acc]
      simp [List.filterMap_cons, h, Except.toOption]
    | ok a =>
      simp only [h]
      rw [ih]
      obtain ⟨a1, a2, a3, a4, a5⟩ := acc
      simp only [List.filterMap_cons, h, Except.toOption, List.map_cons,
        List.sum_cons, List.foldl_cons, List.filter_cons]
      refine Prod.ext ?_ (Prod.ext rfl (Prod.ext rfl (Prod.ext ?_ ?_)))
      · simp
        omega
      · simp
        omega
      · by_cases hq : a.summary.has_quota = true
        · simp [hq]
          omega
        · simp only [Bool.not_eq_true] at hq
          simp [hq]

/-- C5: `get_cluster_overview` reports `total_namespaces` as the count of
*all* discovered Run.ai namespaces, while every accumulated total (claim
count, capacities, unused count, quota count) ranges only over the
namespaces whose analysis returned `ok` — a namespace whose analysis
raises is skipped without aborting the overview. -/
theorem get_cluster_overview_totals (st : K8sState) (now : Int) :
    (get_cluster_overview st now).total_namespaces =
      (list_runai_namespaces st).length ∧
    (get_cluster_overview st now).total_pvcs =
      ((((list_runai_namespaces st).filterMap fun ns =>
          (analyze_namespace st ns now).toOption).map
        fun a => a.summary.total_pvcs).sum) ∧
    (get_cluster_overview st now).total_capacity_gi =
      (((list_runai_namespaces st).filterMap fun ns =>
          (analyze_namespace st ns now).toOption).foldl
        (fun c a => c.add a.summary.total_capacity_gi) (Frac.ofInt 0)) ∧
    (get_cluster_overview st now).unused_capacity_gi =
      (((list_runai_namespaces st).filterMap fun ns =>
          (analyze_namespace st ns now).toOption).foldl
        (fun c a => c.add a.summary.unused_capacity_gi) (Frac.ofInt 0)) ∧
    (get_cluster_overview st now).total_unused_pvcs =
      ((((list_runai_namespaces st).filterMap fun ns =>
          (analyze_namespace st ns now).toOption).map
        fun a => a.summary.unused_pvcs).sum) ∧
    (get_cluster_overview st now).namespaces_with_quota =
      (((list_runai_namespaces st).filterMap fun ns =>
          (analyze_namespace st ns now).toOption).filter
        (fun a => a.summary.has_quota)).length ∧
    (get_cluster_overview st now).timestamp = now := by
  simp only [get_cluster_overview]
  simp only [cluster_overview_fold st now]
  simp

/- The spec's overview scenario: "runai-ok" succeeds with one 10Gi claim,
"runai-bad" raises; the overview counts both namespaces but only
"runai-ok"'s metrics. -/
example :
    get_cluster_overview mixedClusterState 0 =
      { total_namespaces := 2, total_pvcs := 1,
        total_capacity_gi := ⟨10, 1⟩, unused_capacity_gi := ⟨10, 1⟩,
        total_unused_pvcs := 1, namespaces_with_quota := 0,
        timestamp := 0 } := by
  decide

/-! ## C6 — `is_unused` iff no mounting workloads -/

/-- C6: every enriched claim `get_pvcs_with_pods` produces has
`is_unused` true exactly when its list of mounting pods is empty. -/
theorem is_unused_iff_no_pods (st : K8sState) (ns : String) (now : Int) :
    ∀ e ∈ get_pvcs_with_pods st ns now, (e.is_unused = true ↔ e.pods = []) := by
  intro e he
  simp only [get_pvcs_with_pods, List.mem_map] at he
  obtain ⟨pvc, hpvc, rfl⟩ := he
  simp [List.length_eq_zero]

/-- C6, witness: the theorem applied to the first enriched claim of the
"tenant-a" scenario. -/
theorem is_unused_iff_no_pods_witness :
    ((get_pvcs_with_pods tenantAState "tenant-a" (100 * 86400)).get
        ⟨0, by decide⟩).is_unused = true ↔
      ((get_pvcs_with_pods tenantAState "tenant-a" (100 * 86400)).get
        ⟨0, by decide⟩).pods = [] :=
  is_unused_iff_no_pods tenantAState "tenant-a" (100 * 86400) _
    (List.get_mem _ _ _)

/-! ## C7 — quota merging -/

theorem dictGet_map_replace_ne {α : Type} (k : String) (v : α) (k2 : String)
    (hk : ¬ k2 = k) (d : List (String × α)) :
    dictGet (d.map fun p => if p.1 = k then (k, v) else p) k2 = dictGet d k2 := by
  induction d with
  | nil => rfl
  | cons p t ih =>
    by_cases hp : p.1 = k
    · simp only [List.map_cons, if_pos hp, dictGet, List.find?_cons] at ih ⊢
      have h1 : decide ((k, v).1 = k2) = false := by
        simp
        exact fun h => hk h.symm
      have h2 : decide (p.1 = k2) = false := by
        simp
        rw [hp]
        exact fun h => hk h.symm
      rw [h1, h2]
      exact ih
    · simp only [List.map_cons, if_neg hp, dictGet, List.find?_cons] at ih ⊢
      cases h : decide (p.1 = k2)
      · exact ih
      · rfl

theorem dictGet_map_replace_eq {α : Type} (k : String) (v : α) :
    ∀ d : List (String × α), dictContains d k = true →
      dictGet (d.map fun p => if p.1 = k then (k, v) else p) k = some v := by
  intro d
  induction d with
  | nil => intro h; simp [dictContains] at h
  | cons p t ih =>
    intro hc
    by_cases hp : p.1 = k
    · simp [dictGet, List.find?_cons, hp]
    · have hc' : dictContains t k = true := by
        simp only [dictContains, List.any_cons] at hc
        rcases Bool.or_eq_true_iff.mp hc with h | h
        · exact absurd (of_decide_eq_true h) hp
        · exact h
      simp only [List.map_cons, if_neg hp, dictGet, List.find?_cons] at ih ⊢
      have h2 : decide (p.1 = k) = false := decide_eq_false hp
      rw [h2]
      exact ih hc'

theorem dictGet_dictInsert {α : Type} (d : List (String × α)) (k : String)
    (v : α) (k2 : String) :
    dictGet (dictInsert d k v) k2 = if k2 = k then some v else dictGet d k2 := by
  unfold dictInsert
  by_cases hc : dictContains d k = true
  · rw [if_pos hc]
    by_cases hk : k2 = k
    · rw [if_pos hk, hk]
      exact dictGet_map_replace_eq k v d hc
    · rw [if_neg hk]
      exact dictGet_map_replace_ne k v k2 hk d
  · rw [if_neg hc]
    unfold dictGet
    rw [List.find?_append]
    by_cases hk : k2 = k
    · have hnone : d.find? (fun p => p.1 = k2) = none := by
        rw [List.find?_eq_none]
        intro x hx hpx
        apply hc
        simp only [dictContains, List.any_eq_true]
        exact ⟨x, hx, by simpa [hk] using hpx⟩
      rw [if_pos hk, hnone]
      simp [hk]
    · cases h : d.find? (fun p => p.1 = k2) with
      | some w => simp [if_neg hk, h]
      | none =>
        simp only [if_neg hk, h, Option.none_or]
        have : decide ((k, v).1 = k2) = false := by
          simp
          exact fun hh => hk hh.symm
        simp [List.find?_cons, this]

theorem dictGet_foldl_insert {α : Type} (k : String) :
    ∀ (l : List (String × α)) (acc : List (String × α)),
      dictGet (l.foldl (fun a p => dictInsert a p.1 p.2) acc) k =
        match assocFindLast l k with
        | some v => some v
        | none => dictGet acc k := by
  intro l
  induction l with
  | nil => intro acc; rfl
  | cons p t ih =>
    intro acc
    rw [List.foldl_cons, ih]
    cases haux : assocFindLast t k with
    | some v => simp [assocFindLast, haux]
    | none =>
      simp only [assocFindLast, haux]
      rw [dictGet_dictInsert]
      by_cases hp : p.1 = k
      · rw [if_pos hp, if_pos hp.symm]
      · rw [if_neg hp, if_neg (fun h => hp h.symm)]

theorem foldl_dictUpdate_flatMap {α β : Type} (g : β → List (String × α)) :
    ∀ (l : List β) (acc : List (String × α)),
      l.foldl (fun a q => dictUpdate a (g q)) acc =
        (l.flatMap g).foldl (fun a p => dictInsert a p.1 p.2) acc := by
  intro l
  induction l with
  | nil => intro acc; rfl
  | cons q t ih =>
    intro acc
    rw [List.foldl_cons, ih, List.flatMap_cons, List.foldl_append]
    rfl

/-- C7: `get_storage_quota` returns `none` iff the namespace has zero
quota objects; otherwise the merged quota's `hard`/`used` maps hold, for
every key, the value of the *last* binding of that key across the quota
objects in listing order (last-write-wins), and `has_storage_quota` is set
iff the merged hard limits contain "requests.storage" or
"persistentvolumeclaims". -/
theorem get_storage_quota_merge (st : K8sState) (ns : String) :
    (get_storage_quota st ns = none ↔ st.quotas ns = []) ∧
    (∀ q, get_storage_quota st ns = some q →
      (∀ k, dictGet q.hard_limits k =
        assocFindLast ((st.quotas ns).flatMap (·.hard_limits)) k) ∧
      (∀ k, dictGet q.used k =
        assocFindLast ((st.quotas ns).flatMap (·.used)) k) ∧
      q.has_storage_quota =
        (dictContains q.hard_limits "requests.storage" ||
          dictContains q.hard_limits "persistentvolumeclaims")) := by
  unfold get_storage_quota
  cases hq : st.quotas ns with
  | nil =>
    refine ⟨by simp, ?_⟩
    intro q hcontra
    cases hcontra
  | cons first rest =>
    constructor
    · simp
    · intro q hq2
      have hq3 := Option.some.inj hq2
      subst hq3
      refine ⟨?_, ?_, ?_⟩
      · intro k
        simp only []
        rw [foldl_dictUpdate_flatMap (fun r => r.hard_limits) (first :: rest) []]
        rw [dictGet_foldl_insert]
        cases h : assocFindLast ((first :: rest).flatMap fun r => r.hard_limits) k <;>
          simp [h, dictGet]
      · intro k
        simp only []
        rw [foldl_dictUpdate_flatMap (fun r => r.used) (first :: rest) []]
        rw [dictGet_foldl_insert]
        cases h : assocFindLast ((first :: rest).flatMap fun r => r.used) k <;>
          simp [h, dictGet]
      · simp [List.any_cons]

/-- C7, witness: on the two-quota cluster the merged quota takes "q2"'s
later "requests.storage" value (last-write-wins), keeps "q1"'s other key,
and flags `has_storage_quota`. -/
theorem get_storage_quota_merge_witness :
    dictGet
        (ResourceQuota.mk "q1" "runai-q"
          [("requests.storage", "20Gi"), ("cpu", "4")]
          [("requests.storage", "1Gi")] true (some "20Gi") (some "1Gi")
          none none).hard_limits "requests.storage" =
      assocFindLast ((quotaMergeState.quotas "runai-q").flatMap
        (·.hard_limits)) "requests.storage" :=
  ((get_storage_quota_merge quotaMergeState "runai-q").2
    (ResourceQuota.mk "q1" "runai-q"
      [("requests.storage", "20Gi"), ("cpu", "4")]
      [("requests.storage", "1Gi")] true (some "20Gi") (some "1Gi")
      none none) (by decide)).1 "requests.storage"

/-! ## C8 — the closed enumeration of graph kinds -/

/-- C8: the six listed kinds all produce a graph; any other kind makes the
aggregator raise `ValueError("Unknown graph type: ...")`, which the route
surfaces as an HTTP 400 "Invalid graph type" — a caller error distinct
from the 500 used for internal failures — instead of an empty result. -/
theorem get_graph_data_unknown_kind (st : K8sState) (now : Int)
    (timedOut : Nat → Bool) (graph_type : String)
    (namespaces : Option (List String)) (limit : Option Nat) :
    (graph_type ∉ (["storage_usage", "top_unused", "storage_class_dist",
        "age_distribution", "unused_capacity", "pvc_count"] : List String) →
      get_graph_data_async st now timedOut graph_type namespaces limit =
        Except.error (PyErr.valueError ("Unknown graph type: " ++ graph_type)) ∧
      get_graph_data st now timedOut graph_type namespaces limit =
        Except.error { status_code := 400,
                       detail := "Invalid graph type: " ++ graph_type }) ∧
    (graph_type ∈ (["storage_usage", "top_unused", "storage_class_dist",
        "age_distribution", "unused_capacity", "pvc_count"] : List String) →
      exceptIsOk (get_graph_data_async st now timedOut graph_type namespaces
        limit) = true ∧
      exceptIsOk (get_graph_data st now timedOut graph_type namespaces
        limit) = true) := by
  constructor
  · intro h
    simp only [List.mem_cons, List.not_mem_nil, or_false, not_or] at h
    obtain ⟨h1, h2, h3, h4, h5, h6⟩ := h
    have hasync :
        get_graph_data_async st now timedOut graph_type namespaces limit =
          Except.error (PyErr.valueError ("Unknown graph type: " ++ graph_type)) := by
      unfold get_graph_data_async
      rw [if_neg h1, if_neg h2, if_neg h3, if_neg h4, if_neg h5, if_neg h6]
    refine ⟨hasync, ?_⟩
    unfold get_graph_data
    rw [hasync]
  · intro h
    have hok : exceptIsOk (get_graph_data_async st now timedOut graph_type
        namespaces limit) = true := by
      simp only [List.mem_cons, List.not_mem_nil, or_false] at h
      unfold get_graph_data_async
      rcases h with rfl | rfl | rfl | rfl | rfl | rfl <;> rfl
    refine ⟨hok, ?_⟩
    unfold get_graph_data
    cases hg : get_graph_data_async st now timedOut graph_type namespaces limit with
    | ok g => rfl
    | error e =>
      rw [hg] at hok
      cases hok

/-- C8, witness: "bogus_kind" yields the 400 caller error, "top_unused"
succeeds. -/
theorem get_graph_data_unknown_kind_witness :
    (get_graph_data {} 0 (fun _ => false) "bogus_kind" none none =
      Except.error { status_code := 400,
                     detail := "Invalid graph type: bogus_kind" }) ∧
    exceptIsOk (get_graph_data {} 0 (fun _ => false) "top_unused" none none) =
      true :=
  ⟨((get_graph_data_unknown_kind {} 0 (fun _ => false) "bogus_kind" none
      none).1 (by decide)).2,
   ((get_graph_data_unknown_kind {} 0 (fun _ => false) "top_unused" none
      none).2 (by decide)).2⟩

/-! ## C9 — the engine treats malformed capacities as absent, not zero -/

/-- C9: the engine never raises — it is a total function here — and on the
per-claim `unused_pvc` recommendations the carried `capacity_gi` is the
safe parse of that claim's capacity: `None` (not 0.0) whenever the
configured parser raises on the capacity string or yields a negative
value. -/
theorem generate_recommendations_malformed_capacity_none
    (parser : String → Except String Frac) (pvcs_with_pods : List PVCWithPods)
    (summary : StorageSummary) (quota : Option ResourceQuota) :
    (((generate_recommendations { capacity_parse_fn := some parser }
          pvcs_with_pods summary quota).filter
        (fun r => r.type == "unused_pvc")).map
      (fun r => (r.pvc_name, r.capacity_gi)) =
      (pvcs_with_pods.filter (·.is_unused)).map
        (fun p => (some p.pvc.name,
          _parse_capacity { capacity_parse_fn := some parser }
            (some p.pvc.capacity)))) ∧
    (∀ c e, parser c = Except.error e →
      _parse_capacity { capacity_parse_fn := some parser } (some c) = none) ∧
    (∀ c v, parser c = Except.ok v → (Frac.ofInt 0).ble v = false →
      _parse_capacity { capacity_parse_fn := some parser } (some c) = none) := by
  refine ⟨?_, ?_, ?_⟩
  · rw [generate_recommendations_eq]
    have hb1 : (("unused_storage_summary" : String) == "unused_pvc") = false := by
      decide
    have hb2 : (("pending_pvc" : String) == "unused_pvc") = false := by decide
    have hb3 : (("old_unused_pvc" : String) == "unused_pvc") = false := by decide
    simp only [List.filter_append]
    rw [List.filter_map]
    have hfu : ∀ l : List PVCWithPods,
        l.filter ((fun r => r.type == "unused_pvc") ∘ unusedPvcRec
          { capacity_parse_fn := some parser }) = l := by
      intro l
      apply List.filter_eq_self.mpr
      intro a _
      rfl
    rw [hfu]
    have he1 : (if pvcs_with_pods.filter (·.is_unused) ≠ [] ∧
        (Frac.ofInt 0).blt summary.unused_capacity_gi = true then
          [unusedStorageSummaryRec summary
            (pvcs_with_pods.filter (·.is_unused)).length]
        else []).filter (fun r => r.type == "unused_pvc") = [] := by
      split <;> simp [unusedStorageSummaryRec, hb1]
    have he2 : (if summary.pending_pvcs > 0 then [pendingPvcRec summary]
        else []).filter (fun r => r.type == "unused_pvc") = [] := by
      split <;> simp [pendingPvcRec, hb2]
    have he3 : (if (pvcs_with_pods.filter (·.is_unused)).filter isOldUnused ≠ []
        then [oldUnusedPvcRec
          (((pvcs_with_pods.filter (·.is_unused)).filter isOldUnused)).length]
        else []).filter (fun r => r.type == "unused_pvc") = [] := by
      split <;> simp [oldUnusedPvcRec, hb3]
    rw [he1, he2, he3]
    simp [unusedPvcRec]
  · intro c e he
    simp [_parse_capacity, he]
  · intro c v hv hneg
    simp [_parse_capacity, hv, hneg]

/-- C9, witness: with the analyzer's parser, the capacity "abc" (parser
raises) and "-5Gi" (parses negative) both yield `capacity_gi = none`. -/
theorem generate_recommendations_malformed_capacity_none_witness :
    _parse_capacity { capacity_parse_fn := some parse_capacity_to_gi }
        (some "abc") = none ∧
    _parse_capacity { capacity_parse_fn := some parse_capacity_to_gi }
        (some "-5Gi") = none :=
  ⟨(generate_recommendations_malformed_capacity_none parse_capacity_to_gi []
      { «namespace» := "ns" } none).2.1 "abc"
      "could not convert string to float" (by decide),
   (generate_recommendations_malformed_capacity_none parse_capacity_to_gi []
      { «namespace» := "ns" } none).2.2 "-5Gi" ⟨-5, 1⟩ (by decide) (by decide)⟩

/-! ## C10 — the storage-class graph is a placeholder constant -/

/-- C10: `_generate_storage_class_graph` ignores its input — every digest
list yields the same doughnut with labels standard/fast/archive and data
60/30/10 — and the `storage_class_dist` dispatch of
`get_graph_data_async` returns that same constant for every cluster
state, timeout oracle, namespace filter and limit. -/
theorem storage_class_dist_constant :
    (∀ summaries : List NamespaceSummary,
      _generate_storage_class_graph summaries =
        { type := "doughnut", labels := ["standard", "fast", "archive"],
          datasets := [{ label := none,
                         data := [Frac.ofInt 60, Frac.ofInt 30, Frac.ofInt 10],
                         backgroundColor :=
                           BgColor.multi ["#76b900", "#3b82f6", "#9ca3af"] }],
          options := {} }) ∧
    (∀ (st : K8sState) (now : Int) (timedOut : Nat → Bool)
        (namespaces : Option (List String)) (limit : Option Nat),
      get_graph_data_async st now timedOut "storage_class_dist" namespaces
          limit =
        Except.ok
          { type := "doughnut", labels := ["standard", "fast", "archive"],
            datasets := [{ label := none,
                           data := [Frac.ofInt 60, Frac.ofInt 30, Frac.ofInt 10],
                           backgroundColor :=
                             BgColor.multi ["#76b900", "#3b82f6", "#9ca3af"] }],
            options := {} }) :=
  ⟨fun _ => rfl, fun _ _ _ _ _ => rfl⟩

end StorageMonitor
